import Mathlib

set_option allowUnsafeReducibility true
attribute [local semireducible] Rat.add Rat.mul Rat.sub Rat.inv Rat.ofScientific

/-!
Verification of the document-intelligence core of the ROI-Systems repository:
the compliance rule engine (`ml/src/document_intelligence/compliance_checker.py`)
and the change detector (`ml/src/document_intelligence/change_detector.py`).

The Python code is shallowly embedded: dictionaries become association lists,
Python floats become rationals, `datetime` values become integer timestamps in
seconds, and code paths that raise a `TypeError` in Python are modelled by
`Option`-returning functions (`none` = the call raises).  External libraries
(difflib, pdf2image, PIL, cv2, numpy) are collaborators, not repository code;
where the repository consumes their output the embedding takes that output as
an explicit argument.
-/

/-- Lower-case a string character by character, as Python `str.lower` does for
ASCII text (all strings compared in the sources are ASCII). -/
def pyLower (s : String) : String := String.mk (s.toList.map Char.toLower)

/-- Python substring test `sub in text`, as containment of character lists. -/
def pyContains (sub text : String) : Bool := decide (sub.toList <:+: text.toList)

/-- Python `s.strip()`: drop whitespace from both ends. -/
def pyStrip (s : String) : String :=
  String.mk (((s.toList.dropWhile Char.isWhitespace).reverse.dropWhile Char.isWhitespace).reverse)

/-- Python `s.startswith(sub)`. -/
def pyStartsWith (sub s : String) : Bool := List.isPrefixOf sub.toList s.toList

/-- Single-separator split of a character list, as Python `s.split(sep)` for a
one-character separator (also the behaviour of `str.split` used via the fixed
date formats). -/
def splitOnChar (sep : Char) : List Char → List (List Char)
  | [] => [[]]
  | c :: rest =>
    match splitOnChar sep rest with
    | [] => [[]]
    | h :: t => if c = sep then [] :: h :: t else (c :: h) :: t

/-- Split a string on a one-character separator. -/
def pySplit (sep : Char) (s : String) : List String :=
  (splitOnChar sep s.toList).map String.mk

/-- Round half to even, the rounding used by Python `round` and string
formatting (on the rational value; the binary-float representation step of
CPython is not modelled). -/
def roundHalfEven (q : ℚ) : ℤ :=
  let f : ℤ := Int.fdiv q.num q.den
  let frac : ℚ := q - f
  if frac < 1/2 then f
  else if 1/2 < frac then f + 1
  else if f % 2 = 0 then f else f + 1

/-- Python `round(q, n)` on a rational value. -/
def pyRound (q : ℚ) (n : ℕ) : ℚ := (roundHalfEven (q * 10 ^ n) : ℚ) / 10 ^ n

/-- Insert thousands separators into a digit string, as the `,` format spec. -/
def groupThousands (s : List Char) : List Char :=
  (List.intersperse [','] (s.reverse.toChunks 3)).flatten.reverse

/-- Python format spec `,.2f` applied to a rational value. -/
def fmtComma2 (q : ℚ) : String :=
  let c : ℤ := roundHalfEven (q * 100)
  let sign := if c < 0 then "-" else ""
  let a := c.natAbs
  sign ++ String.mk (groupThousands (toString (a / 100)).toList) ++ "." ++
    (if a % 100 < 10 then "0" else "") ++ toString (a % 100)

/-- Python format spec `.1f` applied to a rational value. -/
def fmtDot1 (q : ℚ) : String :=
  let c : ℤ := roundHalfEven (q * 10)
  let sign := if c < 0 then "-" else ""
  sign ++ toString (c.natAbs / 10) ++ "." ++ toString (c.natAbs % 10)

/-- A JSON-like Python value as it appears in `extracted_data`:
`None`, bool, int/float (as one numeric constructor), str, `datetime`
(as a timestamp in seconds), list, or dict. -/
inductive Value where
  | vNone : Value
  | vBool : Bool → Value
  | vNum : ℚ → Value
  | vStr : String → Value
  | vDate : ℤ → Value
  | vList : List Value → Value
  | vDict : List (String × Value) → Value

/-- First-match lookup in an association list modelling a Python dict
(dict keys are unique, so first match is the match). -/
def lookupField (data : List (String × Value)) (k : String) : Option Value :=
  match data with
  | [] => none
  | (k₀, v) :: rest => if k₀ = k then some v else lookupField rest k

/-- Python `d.get(k)`: `None` when the key is absent. -/
def pyGet (data : List (String × Value)) (k : String) : Value :=
  (lookupField data k).getD .vNone

/-- Python `d.get(k, default)`. -/
def pyGetD (data : List (String × Value)) (k : String) (d : Value) : Value :=
  (lookupField data k).getD d

/-- Python truthiness of a value. -/
def truthy : Value → Bool
  | .vNone => false
  | .vBool b => b
  | .vNum q => q != 0
  | .vStr s => s != ""
  | .vDate _ => true
  | .vList xs => !xs.isEmpty
  | .vDict d => !d.isEmpty

/-- Python `a or b` on values (returns `a` when truthy, else `b`). -/
def pyOrV (a b : Value) : Value := if truthy a then a else b

/-- Python `req == v` where `req` is a string: true only for an equal string. -/
def pyEqStr (v : Value) (s : String) : Bool :=
  match v with
  | .vStr t => t == s
  | _ => false

/-- Python `len(v)` where defined (str, list, dict); `none` = `TypeError`. -/
def pyLen : Value → Option ℕ
  | .vStr s => some s.length
  | .vList xs => some xs.length
  | .vDict d => some d.length
  | _ => none

/-- The loop body of `ComplianceChecker._get_nested_value` after the first key:
descend while the current value is a dict, otherwise the lookup yields `None`. -/
def goNested : Value → List String → Value
  | v, [] => v
  | .vDict d, k :: rest => goNested (pyGet d k) rest
  | _, _ :: _ => .vNone

/-- `ComplianceChecker._get_nested_value`: dot-path lookup into the data. -/
def getNestedValue (data : List (String × Value)) (key : String) : Value :=
  match pySplit '.' key with
  | [] => .vNone
  | k :: rest => goNested (pyGet data k) rest

/-- Digits of a decimal numeral folded to a natural number. -/
def natOfDigits (cs : List Char) : ℕ := cs.foldl (fun a c => 10 * a + (c.toNat - 48)) 0

/-- A numeric field of a date string: nonempty, all digits, bounded width. -/
def parseIntField (s : String) (maxLen : ℕ) : Option ℕ :=
  let cs := s.toList
  if !cs.isEmpty && cs.length ≤ maxLen && cs.all (·.isDigit) then some (natOfDigits cs)
  else none

/-- Gregorian leap year. -/
def isLeapYear (y : ℕ) : Bool := (y % 4 == 0 && y % 100 != 0) || y % 400 == 0

/-- Days in a month of the proleptic Gregorian calendar. -/
def daysInMonth (y m : ℕ) : ℕ :=
  if m = 2 then (if isLeapYear y then 29 else 28)
  else if m = 4 ∨ m = 6 ∨ m = 9 ∨ m = 11 then 30
  else 31

/-- Days from 1970-01-01 to the given civil date (standard civil-from-days
algorithm restricted to years ≥ 1). -/
def civilToDays (y m d : ℕ) : ℤ :=
  let y₀ := if m ≤ 2 then y - 1 else y
  let era := y₀ / 400
  let yoe := y₀ % 400
  let mp := if m > 2 then m - 3 else m + 9
  let doy := (153 * mp + 2) / 5 + d - 1
  let doe := yoe * 365 + yoe / 4 - yoe / 100 + doy
  (era * 146097 + doe : ℤ) - 719468

/-- Midnight timestamp (seconds) of a validated calendar date, as `strptime`
validates fields. -/
def tsOfYMD (y m d : ℕ) : Option ℤ :=
  if 1 ≤ y ∧ y ≤ 9999 ∧ 1 ≤ m ∧ m ≤ 12 ∧ 1 ≤ d ∧ d ≤ daysInMonth y m then
    some (86400 * civilToDays y m d)
  else none

/-- `strptime` with format `%Y-%m-%d`. -/
def parseFmtYMD (s : String) : Option ℤ :=
  match pySplit '-' s with
  | [ys, ms, ds] => do
    let y ← parseIntField ys 4
    let m ← parseIntField ms 2
    let d ← parseIntField ds 2
    tsOfYMD y m d
  | _ => none

/-- `strptime` with format `%m/%d/%Y`. -/
def parseFmtMDY (s : String) : Option ℤ :=
  match pySplit '/' s with
  | [ms, ds, ys] => do
    let m ← parseIntField ms 2
    let d ← parseIntField ds 2
    let y ← parseIntField ys 4
    tsOfYMD y m d
  | _ => none

/-- `strptime` with format `%d/%m/%Y`. -/
def parseFmtDMY (s : String) : Option ℤ :=
  match pySplit '/' s with
  | [ds, ms, ys] => do
    let d ← parseIntField ds 2
    let m ← parseIntField ms 2
    let y ← parseIntField ys 4
    tsOfYMD y m d
  | _ => none

/-- `strptime` time-of-day part `%H:%M:%S`, in seconds. -/
def parseHMS (s : String) : Option ℤ :=
  match pySplit ':' s with
  | [hs, ms, ss] => do
    let h ← parseIntField hs 2
    let mi ← parseIntField ms 2
    let se ← parseIntField ss 2
    if h ≤ 23 ∧ mi ≤ 59 ∧ se ≤ 61 then some (3600 * h + 60 * mi + se) else none
  | _ => none

/-- `strptime` with format `%Y-%m-%dT%H:%M:%S`. -/
def parseFmtYMDT (s : String) : Option ℤ :=
  match pySplit 'T' s with
  | [dpart, tpart] => do
    let dts ← parseFmtYMD dpart
    let t ← parseHMS tpart
    some (dts + t)
  | _ => none

/-- `strptime` with format `%Y-%m-%d %H:%M:%S`. -/
def parseFmtYMDSpace (s : String) : Option ℤ :=
  match pySplit ' ' s with
  | [dpart, tpart] => do
    let dts ← parseFmtYMD dpart
    let t ← parseHMS tpart
    some (dts + t)
  | _ => none

/-- The string branch of `ComplianceChecker._parse_date`: the five formats
tried in order. -/
def parseDateString (s : String) : Option ℤ :=
  parseFmtYMD s <|> parseFmtMDY s <|> parseFmtDMY s <|> parseFmtYMDT s <|> parseFmtYMDSpace s

/-- `ComplianceChecker._parse_date`: pass a `datetime` value through, parse a
string against the format list, anything else yields `None`. -/
def parseDate : Value → Option ℤ
  | .vDate t => some t
  | .vStr s => parseDateString s
  | _ => none

/-- The character filter of `ComplianceChecker._parse_amount`:
`re.sub(r"[$,]", "", s)`. -/
def stripCurrency (s : String) : String :=
  String.mk (s.toList.filter (fun c => c ≠ '$' ∧ c ≠ ','))

/-- Python `float(s)` for plain decimal strings: optional sign, digits with at
most one decimal point, at least one digit.  The exponent, infinity, NaN and
surrounding-whitespace forms accepted by CPython are not modelled (none occurs
in this repository). -/
def parseFloatString (s : String) : Option ℚ :=
  let cs := s.toList
  let sgn : ℚ := match cs with
    | '-' :: _ => -1
    | _ => 1
  let body := match cs with
    | '-' :: r => r
    | '+' :: r => r
    | r => r
  let intPart := body.takeWhile (·.isDigit)
  let rest := body.dropWhile (·.isDigit)
  match rest with
  | [] => if intPart.isEmpty then none else some (sgn * (natOfDigits intPart : ℚ))
  | '.' :: frac =>
    if frac.all (·.isDigit) ∧ (!intPart.isEmpty || !frac.isEmpty) then
      some (sgn * ((natOfDigits intPart : ℚ) + (natOfDigits frac : ℚ) / (10 ^ frac.length)))
    else none
  | _ => none

/-- `ComplianceChecker._parse_amount`: numbers (and bools, which Python treats
as ints) pass through, strings are stripped of `$`/`,` and parsed as floats,
everything else yields `None`. -/
def parseAmount : Value → Option ℚ
  | .vNum q => some q
  | .vBool b => some (if b then 1 else 0)
  | .vStr s => parseFloatString (stripCurrency s)
  | _ => none

/-- `ComplianceChecker._is_valid_email` character class for the local part. -/
def emailLocalChar (c : Char) : Bool :=
  c.isAlphanum || c = '.' || c = '_' || c = '%' || c = '+' || c = '-'

/-- `ComplianceChecker._is_valid_email` character class for the domain part. -/
def emailDomainChar (c : Char) : Bool := c.isAlphanum || c = '.' || c = '-'

/-- The regex `[a-zA-Z0-9.-]+\.[a-zA-Z]{2,}` applied to the part after `@`:
some dot splits it into a nonempty domain-class run and a ≥2-letter suffix. -/
def validEmailDomain (s : String) : Bool :=
  let cs := s.toList
  (List.range cs.length).any (fun i =>
    cs.getD i ' ' == '.' && 1 ≤ i && (cs.take i).all emailDomainChar &&
    2 ≤ cs.length - (i + 1) && (cs.drop (i + 1)).all (·.isAlpha))

/-- `ComplianceChecker._is_valid_email`: the anchored regex
`^[a-zA-Z0-9._%+-]+@[a-zA-Z0-9.-]+\.[a-zA-Z]{2,}$`. -/
def validEmail (s : String) : Bool :=
  match pySplit '@' s with
  | [lpart, dpart] => !lpart.isEmpty && lpart.toList.all emailLocalChar && validEmailDomain dpart
  | _ => false

/-- `ComplianceChecker._is_valid_phone`: strip separators and whitespace, then
require 10 or 11 digits. -/
def validPhone (s : String) : Bool :=
  let cleaned := s.toList.filter (fun c =>
    !(c = '-' ∨ c = '(' ∨ c = ')' ∨ c = '.' ∨ c.isWhitespace))
  (cleaned.length == 10 || cleaned.length == 11) && cleaned.all (·.isDigit)

/-- `ComplianceChecker._is_valid_ssn`: strip hyphens, then require exactly 9
digits. -/
def validSSN (s : String) : Bool :=
  let cleaned := s.toList.filter (fun c => c ≠ '-')
  cleaned.length == 9 && cleaned.all (·.isDigit)

/-- One entry of the `checks` sequence of a compliance report.  The Python
code builds per-check dicts whose optional keys differ by check kind; here the
unused list fields default to `[]`. -/
structure CheckResult where
  check_name : String
  check_type : String
  status : String
  missing_fields : List String := []
  missing_signatures : List String := []
  missing_clauses : List String := []
  issues : List String := []
  message : String
  severity : Option String
deriving DecidableEq, Repr

/-- `ComplianceChecker._check_required_fields`. -/
def checkRequiredFields (required : List String) (data : List (String × Value)) : CheckResult :=
  let missing := required.filter (fun f =>
    match getNestedValue data f with
    | .vNone => true
    | .vStr s => pyStrip s == ""
    | _ => false)
  { check_name := "Required Fields"
    check_type := "REQUIRED_FIELD"
    status := if missing.isEmpty then "PASS" else "FAIL"
    missing_fields := missing
    message := if missing.isEmpty then "All required fields present"
      else "Missing " ++ toString missing.length ++ " required fields: " ++
        String.intercalate ", " missing
    severity := if missing.isEmpty then none else some "CRITICAL" }

/-- The signature-type extraction of `ComplianceChecker._check_signatures`:
`sig.get("type") or sig.get("signer_role")` over the dict entries of the list;
a non-list yields the empty list. -/
def signatureTypesOf : Value → List Value
  | .vList sigs => sigs.filterMap (fun s =>
      match s with
      | .vDict d => some (pyOrV (pyGet d "type") (pyGet d "signer_role"))
      | _ => none)
  | _ => []

/-- `ComplianceChecker._check_signatures`. -/
def checkSignatures (required : List String) (signatures : Value) : CheckResult :=
  let sigTypes := signatureTypesOf signatures
  let missing := required.filter (fun req => !(sigTypes.any (fun v => pyEqStr v req)))
  { check_name := "Signatures"
    check_type := "SIGNATURE"
    status := if missing.isEmpty then "PASS" else "FAIL"
    missing_signatures := missing
    message := if missing.isEmpty then "All signatures present"
      else "Missing " ++ toString missing.length ++ " required signatures: " ++
        String.intercalate ", " missing
    severity := if missing.isEmpty then none else some "CRITICAL" }

/-- A list value all of whose elements are strings; `none` otherwise. -/
def strListOf : List Value → Option (List String)
  | [] => some []
  | .vStr s :: rest => (strListOf rest).map (s :: ·)
  | _ :: _ => none

/-- Python `" ".join(clauses)`: joins a list of strings; a plain string joins
its characters; a dict joins its keys; anything else raises `TypeError`. -/
def joinClauses : Value → Option String
  | .vList xs => (strListOf xs).map (String.intercalate " ")
  | .vStr s => some (String.intercalate " " (s.toList.map (fun c => String.mk [c])))
  | .vDict d => some (String.intercalate " " (d.map (·.1)))
  | _ => none

/-- `ComplianceChecker._check_required_clauses`; `none` models the `TypeError`
raised by `" ".join` on an unjoinable `clauses` value. -/
def checkRequiredClauses (required : List String) (clauses : Value) : Option CheckResult :=
  (joinClauses clauses).map fun joined =>
    let clauseText := pyLower joined
    let missing := required.filter (fun c =>
      !pyContains (String.mk ((pyLower c).toList.map (fun ch => if ch = '_' then ' ' else ch))) clauseText)
    { check_name := "Required Clauses"
      check_type := "CLAUSE_CHECK"
      status := if missing.isEmpty then "PASS" else "FAIL"
      missing_clauses := missing
      message := if missing.isEmpty then "All required clauses present"
        else "Missing " ++ toString missing.length ++ " required clauses: " ++
          String.intercalate ", " missing
      severity := if missing.isEmpty then none else some "HIGH" }

/-- One iteration of the loop of `ComplianceChecker._check_dates`.  `now` is
the value of `datetime.now()` in seconds; `.days` of a Python timedelta is the
floor of the difference divided by 86400. -/
def dateStep (data : List (String × Value)) (now : ℤ) (issues : List String)
    (check : String) : List String :=
  if check = "closing_date_in_future" then
    match parseDate (pyGet data "closing_date") with
    | some cd => if cd < now then issues ++ ["Closing date is in the past"] else issues
    | none => issues
  else if check = "contract_date_before_closing" then
    match parseDate (pyGet data "contract_date"), parseDate (pyGet data "closing_date") with
    | some cd, some cl =>
      if cd ≥ cl then issues ++ ["Contract date must be before closing date"] else issues
    | _, _ => issues
  else if check = "closing_date_reasonable" then
    match parseDate (pyGet data "closing_date") with
    | some cd =>
      let days := Int.fdiv (cd - now) 86400
      if days < 0 then issues ++ ["Closing date is in the past"]
      else if days > 180 then issues ++ ["Closing date is more than 6 months away"]
      else issues
    | none => issues
  else if check = "inspection_period_valid" then
    match parseDate (pyGet data "inspection_deadline"), parseDate (pyGet data "contract_date") with
    | some idl, some cd =>
      let days := Int.fdiv (idl - cd) 86400
      if days < 1 then issues ++ ["Inspection period is too short (< 1 day)"]
      else if days > 30 then issues ++ ["Inspection period is unusually long (> 30 days)"]
      else issues
    | _, _ => issues
  else if check = "application_date_valid" then
    match parseDate (pyGet data "application_date") with
    | some ad => if ad > now then issues ++ ["Application date is in the future"] else issues
    | none => issues
  else if check = "effective_date_valid" then
    match parseDate (pyGet data "effective_date") with
    | some ed =>
      if (Int.fdiv (ed - now) 86400).natAbs > 90 then
        issues ++ ["Effective date is more than 90 days from today"]
      else issues
    | none => issues
  else if check = "execution_date_valid" then
    match parseDate (pyGet data "execution_date") with
    | some ed => if ed > now then issues ++ ["Execution date is in the future"] else issues
    | none => issues
  else issues

/-- `ComplianceChecker._check_dates`. -/
def checkDates (checks : List String) (data : List (String × Value)) (now : ℤ) : CheckResult :=
  let issues := checks.foldl (dateStep data now) []
  { check_name := "Date Consistency"
    check_type := "DATE_CHECK"
    status := if issues.isEmpty then "PASS" else if issues.length = 1 then "WARNING" else "FAIL"
    issues := issues
    message := if issues.isEmpty then "All dates are consistent" else String.intercalate "; " issues
    severity := if issues.length > 1 then some "HIGH"
      else if !issues.isEmpty then some "MEDIUM" else none }

/-- The fee total of the `fees_reasonable` branch:
`sum(parse_amount(f.get("amount", 0)) for f in fees if isinstance(f, dict))`.
`none` models the `TypeError` raised when the value is not iterable or when an
unparseable amount makes the sum add `None`. -/
def feesTotal : Value → Option ℚ
  | .vList xs => xs.foldl (fun acc f =>
      match acc, f with
      | none, _ => none
      | some t, .vDict d => (parseAmount (pyGetD d "amount" (.vNum 0))).map (t + ·)
      | some t, _ => some t) (some 0)
  | .vStr _ => some 0
  | .vDict _ => some 0
  | _ => none

/-- One iteration of the loop of `ComplianceChecker._check_amounts`.  Python
truthiness guards (`if x and y:`) become `some`-and-nonzero tests; `none`
models a `TypeError` escaping the check. -/
def amountStep (data : List (String × Value)) (acc : Option (List String))
    (check : String) : Option (List String) :=
  match acc with
  | none => none
  | some issues =>
    if check = "loan_amount_less_than_price" then
      match parseAmount (pyGet data "loan_amount"),
            parseAmount (pyOrV (pyGet data "sale_price") (pyGet data "purchase_price")) with
      | some loan, some sale =>
        if loan ≠ 0 ∧ sale ≠ 0 ∧ loan > sale then
          some (issues ++ ["Loan amount ($" ++ fmtComma2 loan ++ ") exceeds sale price ($" ++
            fmtComma2 sale ++ ")"])
        else some issues
      | _, _ => some issues
    else if check = "fees_reasonable" then
      match feesTotal (pyGetD data "fees" (.vList [])) with
      | none => none
      | some totalFees =>
        match parseAmount (pyGet data "sale_price") with
        | some sale =>
          if sale ≠ 0 ∧ totalFees > sale * (1/10) then
            some (issues ++ ["Total fees ($" ++ fmtComma2 totalFees ++
              ") exceed 10% of sale price"])
          else some issues
        | none => some issues
    else if check = "earnest_money_reasonable" then
      match parseAmount (pyGet data "earnest_money"), parseAmount (pyGet data "purchase_price") with
      | some e, some p =>
        if e ≠ 0 ∧ p ≠ 0 then
          let pct := e / p * 100
          if pct < 1/2 then
            some (issues ++ ["Earnest money (" ++ fmtDot1 pct ++ "%) is very low (< 0.5%)"])
          else if pct > 10 then
            some (issues ++ ["Earnest money (" ++ fmtDot1 pct ++ "%) is very high (> 10%)"])
          else some issues
        else some issues
      | _, _ => some issues
    else if check = "purchase_price_positive" then
      match parseAmount (pyGet data "purchase_price") with
      | some p => if p ≠ 0 ∧ p ≤ 0 then some (issues ++ ["Purchase price must be positive"])
          else some issues
      | none => some issues
    else if check = "loan_amount_positive" then
      match parseAmount (pyGet data "loan_amount") with
      | some l => if l ≠ 0 ∧ l ≤ 0 then some (issues ++ ["Loan amount must be positive"])
          else some issues
      | none => some issues
    else if check = "income_sufficient" then
      match parseAmount (pyGet data "income"), parseAmount (pyGet data "loan_amount") with
      | some income, some loan =>
        if income ≠ 0 ∧ loan ≠ 0 then
          let estimatedPayment := loan * (5/1000)
          let monthlyIncome := if income > 100000 then income / 12 else income
          if estimatedPayment > monthlyIncome * (43/100) then
            some (issues ++ ["Debt-to-income ratio may be too high (> 43%)"])
          else some issues
        else some issues
      | _, _ => some issues
    else if check = "coverage_amount_reasonable" then
      match parseAmount (pyGet data "coverage_amount"),
            parseAmount (pyOrV (pyGet data "property_value") (pyGet data "purchase_price")) with
      | some c, some pv =>
        if c ≠ 0 ∧ pv ≠ 0 ∧ c < pv then
          some (issues ++ ["Coverage amount ($" ++ fmtComma2 c ++
            ") is less than property value ($" ++ fmtComma2 pv ++ ")"])
        else some issues
      | _, _ => some issues
    else some issues

/-- `ComplianceChecker._check_amounts`; `none` models a `TypeError` raised
while summing fees. -/
def checkAmounts (checks : List String) (data : List (String × Value)) : Option CheckResult :=
  (checks.foldl (amountStep data) (some [])).map fun issues =>
    { check_name := "Amount Validation"
      check_type := "AMOUNT_CHECK"
      status := if issues.isEmpty then "PASS" else "WARNING"
      issues := issues
      message := if issues.isEmpty then "All amounts are reasonable"
        else String.intercalate "; " issues
      severity := if issues.isEmpty then none else some "MEDIUM" }

/-- One iteration of the loop of `ComplianceChecker._check_format`; `none`
models the `TypeError` raised when a truthy non-string reaches `re.match` or a
value without `len` reaches `len()`. -/
def formatStep (data : List (String × Value)) (acc : Option (List String))
    (check : String) : Option (List String) :=
  match acc with
  | none => none
  | some issues =>
    if check = "email_format" then
      let email := pyOrV (pyGet data "email") (pyGet data "applicant_email")
      if truthy email then
        match email with
        | .vStr s => if validEmail s then some issues
            else some (issues ++ ["Invalid email format: " ++ s])
        | _ => none
      else some issues
    else if check = "phone_format" then
      let phone := pyOrV (pyGet data "phone") (pyGet data "applicant_phone")
      if truthy phone then
        match phone with
        | .vStr s => if validPhone s then some issues
            else some (issues ++ ["Invalid phone format: " ++ s])
        | _ => none
      else some issues
    else if check = "ssn_format" then
      let ssn := pyGet data "ssn"
      if truthy ssn then
        match ssn with
        | .vStr s => if validSSN s then some issues else some (issues ++ ["Invalid SSN format"])
        | _ => none
      else some issues
    else if check = "legal_description_format" then
      let ld := pyGet data "legal_description"
      if truthy ld then
        match pyLen ld with
        | some n => if n < 20 then some (issues ++ ["Legal description appears incomplete"])
            else some issues
        | none => none
      else some issues
    else some issues

/-- `ComplianceChecker._check_format`. -/
def checkFormat (checks : List String) (data : List (String × Value)) : Option CheckResult :=
  (checks.foldl (formatStep data) (some [])).map fun issues =>
    { check_name := "Format Validation"
      check_type := "FORMAT_CHECK"
      status := if issues.isEmpty then "PASS" else "WARNING"
      issues := issues
      message := if issues.isEmpty then "All formats are valid"
        else String.intercalate "; " issues
      severity := if issues.isEmpty then none else some "LOW" }

/-- One category entry of the rule catalog.  Python stores rules as a dict
with optional keys read through `rules.get(k, [])`; presence of the
`required_clauses` key (which gates the clause check) is an `Option`. -/
structure ComplianceRules where
  required_fields : List String := []
  required_signatures : List String := []
  required_clauses : Option (List String) := none
  date_checks : List String := []
  amount_checks : List String := []
  format_checks : List String := []
deriving DecidableEq, Repr

/-- `ComplianceChecker._load_default_rules`. -/
def defaultRules : List (String × ComplianceRules) :=
  [("SETTLEMENT_STATEMENT",
    { required_fields := ["buyer_name", "seller_name", "property_address",
        "sale_price", "closing_date", "loan_amount"]
      required_signatures := ["buyer", "seller", "closing_agent"]
      date_checks := ["closing_date_in_future", "contract_date_before_closing"]
      amount_checks := ["loan_amount_less_than_price", "fees_reasonable"]
      format_checks := ["email_format", "phone_format"] }),
   ("PURCHASE_AGREEMENT",
    { required_fields := ["buyer_name", "seller_name", "property_address",
        "purchase_price", "earnest_money", "closing_date", "inspection_period"]
      required_signatures := ["buyer", "seller"]
      required_clauses := some ["contingencies", "inspection_period", "financing_terms"]
      date_checks := ["closing_date_reasonable", "inspection_period_valid"]
      amount_checks := ["earnest_money_reasonable", "purchase_price_positive"] }),
   ("LOAN_APPLICATION",
    { required_fields := ["applicant_name", "ssn", "loan_amount",
        "property_address", "employment_info", "income"]
      required_signatures := ["applicant"]
      date_checks := ["application_date_valid"]
      amount_checks := ["loan_amount_positive", "income_sufficient"]
      format_checks := ["ssn_format", "email_format", "phone_format"] }),
   ("TITLE_INSURANCE",
    { required_fields := ["property_address", "owner_name", "policy_number",
        "coverage_amount", "effective_date"]
      required_signatures := ["insurer", "owner"]
      date_checks := ["effective_date_valid"]
      amount_checks := ["coverage_amount_reasonable"] }),
   ("DEED",
    { required_fields := ["grantor_name", "grantee_name", "property_description",
        "consideration_amount", "execution_date"]
      required_signatures := ["grantor", "notary"]
      required_clauses := some ["legal_description"]
      date_checks := ["execution_date_valid"]
      format_checks := ["legal_description_format"] })]

/-- `self.rules.get(category, {})`: a missing category yields the empty rule
set. -/
def lookupRules (category : String) : ComplianceRules :=
  (List.lookup category defaultRules).getD {}

/-- The compliance report of `ComplianceChecker.check_compliance`. -/
structure ComplianceReport where
  overall_status : String
  checks : List CheckResult
  critical_issues : ℕ
  warnings : ℕ
  suggestions : ℕ
  missing_signatures : List String
  missing_fields : List String
  date_inconsistencies : List String
  format_issues : List String
  requires_review : Bool
deriving DecidableEq, Repr

/-- `ComplianceChecker.check_compliance` (the unused `transaction_type`
argument is dropped; `now` is the injected `datetime.now()`).  A `none` result
models a `TypeError` escaping one of the clause/amount/format checks; in every
such case Python raises too, so the observable behaviour agrees. -/
def checkCompliance (category : String) (data : List (String × Value)) (now : ℤ) :
    Option ComplianceReport :=
  let rules := lookupRules category
  let fieldCheck := checkRequiredFields rules.required_fields data
  let signatureCheck := checkSignatures rules.required_signatures (pyGetD data "signatures" (.vList []))
  let clauseRes : Option (Option CheckResult) :=
    match rules.required_clauses with
    | some req => (checkRequiredClauses req (pyGetD data "clauses" (.vList []))).map some
    | none => some none
  let dateCheck := checkDates rules.date_checks data now
  match clauseRes, checkAmounts rules.amount_checks data, checkFormat rules.format_checks data with
  | some clauseOpt, some amountCheck, some formatCheck =>
    let clauseList := match clauseOpt with
      | some c => [c]
      | none => []
    let clauseFail := match clauseOpt with
      | some c => if c.status = "FAIL" then 1 else 0
      | none => 0
    let criticalIssues :=
      (if fieldCheck.status = "FAIL" then 1 else 0) +
      (if signatureCheck.status = "FAIL" then 1 else 0) +
      clauseFail +
      (if dateCheck.status = "FAIL" then 1 else 0)
    let warnings :=
      (if fieldCheck.status = "WARNING" then 1 else 0) +
      (if dateCheck.status = "WARNING" then 1 else 0) +
      (if amountCheck.status = "WARNING" then 1 else 0)
    let suggestions := if formatCheck.status = "WARNING" then 1 else 0
    let overallStatus :=
      if criticalIssues > 0 then "NON_COMPLIANT"
      else if warnings > 2 then "PARTIALLY_COMPLIANT"
      else if warnings > 0 then "NEEDS_REVIEW"
      else "COMPLIANT"
    some
      { overall_status := overallStatus
        checks := [fieldCheck, signatureCheck] ++ clauseList ++ [dateCheck, amountCheck, formatCheck]
        critical_issues := criticalIssues
        warnings := warnings
        suggestions := suggestions
        missing_signatures := signatureCheck.missing_signatures
        missing_fields := fieldCheck.missing_fields
        date_inconsistencies := dateCheck.issues
        format_issues := formatCheck.issues
        requires_review := decide (criticalIssues > 0 ∨ warnings > 2) }
  | _, _, _ => none

/-- The critical-keyword vocabulary of `ChangeDetector.__init__`. -/
def criticalKeywords : List String :=
  ["price", "amount", "date", "deadline", "payment",
   "signature", "contract", "agreement", "terms",
   "conditions", "buyer", "seller", "property",
   "loan", "closing", "earnest", "deposit"]

/-- `ChangeDetector._contains_critical_keyword`. -/
def containsCriticalKeyword (text : String) : Bool :=
  criticalKeywords.any (fun kw => pyContains kw (pyLower text))

/-- `ChangeDetector._extract_critical_keywords`. -/
def extractCriticalKeywords (text : String) : List String :=
  criticalKeywords.filter (fun kw => pyContains kw (pyLower text))

/-- One modification record of `ChangeDetector._detect_modifications`. -/
structure Modification where
  old : String
  new : String
  similarity : ℚ
deriving DecidableEq, Repr

/-- The inner loop of `ChangeDetector._detect_modifications`: scan the
addition indices in order, keeping the best (index, similarity) seen so far;
a candidate replaces the best only when its similarity is above `0.6` and
strictly above the current best.  `sim` is the similarity scorer
(`difflib.SequenceMatcher.ratio`, an external library, passed as a
parameter). -/
def findBestAux (sim : String → String → ℚ) (d : String) (adds : List String)
    (used : List ℕ) : List ℕ → Option ℕ × ℚ → Option ℕ × ℚ
  | [], acc => acc
  | j :: js, acc =>
    if j ∈ used then findBestAux sim d adds used js acc
    else if 3/5 < sim d (adds.getD j "") ∧ acc.2 < sim d (adds.getD j "") then
      findBestAux sim d adds used js (some j, sim d (adds.getD j ""))
    else findBestAux sim d adds used js acc

/-- The best-match search for one deletion, over all addition indices. -/
def findBestMatch (sim : String → String → ℚ) (d : String) (adds : List String)
    (used : List ℕ) : Option ℕ × ℚ :=
  findBestAux sim d adds used (List.range adds.length) (none, 0)

/-- The outer loop body of `ChangeDetector._detect_modifications`: when a best
match exists, append the modification (similarity rounded to 3 digits) and
mark the addition index used. -/
def modStep (sim : String → String → ℚ) (adds : List String)
    (acc : List Modification × List ℕ) (deletion : String) : List Modification × List ℕ :=
  match findBestMatch sim deletion adds acc.2 with
  | (some j, s) => (acc.1 ++ [⟨deletion, adds.getD j "", pyRound s 3⟩], acc.2 ++ [j])
  | (none, _) => acc

/-- `ChangeDetector._detect_modifications` (the write-only `used_deletions`
set of the source is dropped). -/
def detectModifications (sim : String → String → ℚ)
    (deletions additions : List String) : List Modification :=
  (deletions.foldl (modStep sim additions) ([], [])).1

/-- The removal loop of `ChangeDetector.detect_text_changes`: for each matched
line, remove its first occurrence from the raw list if present
(`list.remove`). -/
def removeMatched (lines matched : List String) : List String :=
  matched.foldl (fun ls m => if m ∈ ls then ls.erase m else ls) lines

/-- `ChangeDetector._determine_significance`. -/
def determineSignificance (additions deletions : List String)
    (mods : List Modification) : String :=
  let criticalChanges :=
    (additions.filter containsCriticalKeyword).length +
    (deletions.filter containsCriticalKeyword).length +
    (mods.filter (fun m => containsCriticalKeyword m.old || containsCriticalKeyword m.new)).length
  let totalChanges := additions.length + deletions.length + mods.length
  if criticalChanges ≥ 3 then "CRITICAL"
  else if criticalChanges ≥ 1 then "HIGH"
  else if totalChanges > 20 then "MEDIUM"
  else "LOW"

/-- `ChangeDetector._generate_changes_summary`. -/
def generateChangesSummary (additions deletions : List String)
    (mods : List Modification) : String :=
  let parts :=
    (if !additions.isEmpty then [toString additions.length ++ " addition(s)"] else []) ++
    (if !deletions.isEmpty then [toString deletions.length ++ " deletion(s)"] else []) ++
    (if !mods.isEmpty then [toString mods.length ++ " modification(s)"] else [])
  if parts.isEmpty then "No changes detected"
  else
    let summary := "Document updated with " ++ String.intercalate ", " parts ++ "."
    let criticalItems :=
      ((additions.take 3).filter containsCriticalKeyword).map
        (fun a => "Added: " ++ String.mk (a.toList.take 50) ++ "...") ++
      ((deletions.take 3).filter containsCriticalKeyword).map
        (fun d => "Removed: " ++ String.mk (d.toList.take 50) ++ "...")
    if criticalItems.isEmpty then summary
    else summary ++ " Critical changes: " ++ String.intercalate "; " criticalItems

/-- `ChangeDetector._format_diff`. -/
def formatDiff (additions deletions : List String) (mods : List Modification) : String :=
  let diffLines :=
    (if !additions.isEmpty then
      ["+ ADDITIONS:"] ++ additions.map (fun a => "  + " ++ a) ++ [""] else []) ++
    (if !deletions.isEmpty then
      ["- DELETIONS:"] ++ deletions.map (fun d => "  - " ++ d) ++ [""] else []) ++
    (if !mods.isEmpty then
      ["~ MODIFICATIONS:"] ++
        (mods.map (fun m => ["  OLD: " ++ m.old, "  NEW: " ++ m.new, ""])).flatten
      else [])
  String.intercalate "\n" diffLines

/-- One entry of `ChangeDetector._identify_critical_changes` (the Python dicts
have different keys per kind; unused fields default to empty).  The keyword
set of a modification is modelled as an order-preserving deduplication of the
concatenation (the iteration order of a Python `set` is unspecified). -/
structure CriticalChange where
  kind : String
  content : String := ""
  old_content : String := ""
  new_content : String := ""
  keywords : List String := []
deriving DecidableEq, Repr

/-- `ChangeDetector._identify_critical_changes`. -/
def identifyCriticalChanges (additions deletions : List String)
    (mods : List Modification) : List CriticalChange :=
  (additions.filter containsCriticalKeyword).map
    (fun a => { kind := "addition", content := a, keywords := extractCriticalKeywords a }) ++
  (deletions.filter containsCriticalKeyword).map
    (fun d => { kind := "deletion", content := d, keywords := extractCriticalKeywords d }) ++
  (mods.filter (fun m => containsCriticalKeyword m.old || containsCriticalKeyword m.new)).map
    (fun m => { kind := "modification", old_content := m.old, new_content := m.new,
                keywords := (extractCriticalKeywords m.old ++ extractCriticalKeywords m.new).dedup })

/-- The parse loop of `ChangeDetector.detect_text_changes` over the tagged
lines produced by `difflib.Differ.compare`: collect `+ `/`- ` lines, stripped;
`? ` and unchanged lines are skipped.  Returns (additions, deletions). -/
def parseDiffLines (diff : List String) : List String × List String :=
  diff.foldl (fun (acc : List String × List String) line =>
    if pyStartsWith "+ " line then (acc.1 ++ [pyStrip (String.mk (line.toList.drop 2))], acc.2)
    else if pyStartsWith "- " line then (acc.1, acc.2 ++ [pyStrip (String.mk (line.toList.drop 2))])
    else acc) ([], [])

/-- The result record of `ChangeDetector.detect_text_changes`. -/
structure TextChangeSet where
  additions : List String
  deletions : List String
  modifications : List Modification
  change_percentage : ℚ
  significance : String
  changes_summary : String
  text_diff : String
  critical_changes : List CriticalChange
deriving DecidableEq, Repr

/-- `ChangeDetector.detect_text_changes`, taking the output of the external
line differencer (`difflib.Differ.compare`, Python standard library) as the
`diff` argument and `totalLines = len(new_text.splitlines())`; everything
after the diff is repository code and is embedded here. -/
def detectTextChangesFromDiff (sim : String → String → ℚ) (diff : List String)
    (totalLines : ℕ) : TextChangeSet :=
  let parsed := parseDiffLines diff
  let mods := detectModifications sim parsed.2 parsed.1
  let deletions := removeMatched parsed.2 (mods.map (·.old))
  let additions := removeMatched parsed.1 (mods.map (·.new))
  let changedLines := additions.length + deletions.length + mods.length
  let changePercentage : ℚ :=
    if totalLines > 0 then (changedLines : ℚ) / (totalLines : ℚ) * 100 else 0
  { additions := additions
    deletions := deletions
    modifications := mods
    change_percentage := pyRound changePercentage 2
    significance := determineSignificance additions deletions mods
    changes_summary := generateChangesSummary additions deletions mods
    text_diff := formatDiff additions deletions mods
    critical_changes := identifyCriticalChanges additions deletions mods }

/-- The per-page metrics of `ChangeDetector._compare_images`. -/
structure PageChanges where
  page_number : ℕ
  change_count : ℕ
  change_percentage : ℚ
  significant : Bool
deriving DecidableEq, Repr

/-- The result of comparing one page pair (`ChangeDetector._compare_images`,
whose pixel work is done by the external cv2/PIL/numpy libraries; it is passed
as a parameter below). -/
structure PageCompareResult (Page : Type) where
  highlighted_image : Page
  changes : PageChanges
deriving DecidableEq, Repr

/-- A value of the dict returned by `ChangeDetector.detect_visual_changes`. -/
inductive ReportValue (Page : Type) where
  | rBool : Bool → ReportValue Page
  | rStr : String → ReportValue Page
  | rNone : ReportValue Page
  | rNat : ℕ → ReportValue Page
  | rRat : ℚ → ReportValue Page
  | rPageChanges : List PageChanges → ReportValue Page
deriving DecidableEq, Repr

/-- `ChangeDetector.detect_visual_changes`, keeping the returned dict as a
key-value list.  The PDF-to-image conversion (pdf2image) and the per-page
comparison are external collaborators, passed as the page lists and
`comparePage`; the page loop runs over the overlapping prefix
(`range(min(len(old), len(new)))`).  The page-count mismatch is only written
to the log by the source, so it does not appear in the returned value.  The
library exceptions absorbed by the `except` branch are outside the model
(`comparePage` is total), and `np.mean` of an empty list is modelled by
rational division (0) rather than NaN. -/
def detectVisualChanges {Page : Type} (comparePage : Page → Page → ℕ → PageCompareResult Page)
    (pdfAvailable : Bool) (oldImages newImages : List Page) (outputPath : Option String) :
    List (String × ReportValue Page) :=
  if !pdfAvailable then
    [("success", .rBool false), ("error", .rStr "PDF processing not available")]
  else
    let pageResults := ((oldImages.zip newImages).enum).map
      (fun p => comparePage p.2.1 p.2.2 (p.1 + 1))
    let highlightedImages := pageResults.map (·.highlighted_image)
    let pageChanges := pageResults.map (·.changes)
    let visualDiffUrl : ReportValue Page :=
      match outputPath with
      | some path => if path ≠ "" ∧ !highlightedImages.isEmpty then .rStr path else .rNone
      | none => .rNone
    let totalChanges := (pageChanges.map (·.change_count)).sum
    let avg : ℚ := ((pageChanges.map (·.change_percentage)).sum) / (pageChanges.length : ℚ)
    [("success", .rBool true),
     ("visual_diff_url", visualDiffUrl),
     ("page_count", .rNat highlightedImages.length),
     ("total_changes", .rNat totalChanges),
     ("average_change_percentage", .rRat (pyRound avg 2)),
     ("page_changes", .rPageChanges pageChanges)]

/-- The all-pass required-fields check result (empty rule set). -/
def fieldsPassResult : CheckResult :=
  { check_name := "Required Fields", check_type := "REQUIRED_FIELD", status := "PASS",
    message := "All required fields present", severity := none }

/-- The all-pass signatures check result (empty rule set). -/
def signaturesPassResult : CheckResult :=
  { check_name := "Signatures", check_type := "SIGNATURE", status := "PASS",
    message := "All signatures present", severity := none }

/-- The all-pass dates check result (empty rule set). -/
def datesPassResult : CheckResult :=
  { check_name := "Date Consistency", check_type := "DATE_CHECK", status := "PASS",
    message := "All dates are consistent", severity := none }

/-- The all-pass amounts check result (empty rule set). -/
def amountsPassResult : CheckResult :=
  { check_name := "Amount Validation", check_type := "AMOUNT_CHECK", status := "PASS",
    message := "All amounts are reasonable", severity := none }

/-- The all-pass format check result (empty rule set). -/
def formatPassResult : CheckResult :=
  { check_name := "Format Validation", check_type := "FORMAT_CHECK", status := "PASS",
    message := "All formats are valid", severity := none }

/-- The report produced for a category with no catalog entry: five vacuously
passing checks and a COMPLIANT status. -/
def vacuousReport : ComplianceReport :=
  { overall_status := "COMPLIANT"
    checks := [fieldsPassResult, signaturesPassResult, datesPassResult,
               amountsPassResult, formatPassResult]
    critical_issues := 0
    warnings := 0
    suggestions := 0
    missing_signatures := []
    missing_fields := []
    date_inconsistencies := []
    format_issues := []
    requires_review := false }

/-- Count of checks with status FAIL among the given check kinds. -/
def countFailAmong (kinds : List String) (r : ComplianceReport) : ℕ :=
  (r.checks.filter (fun c => decide (c.check_type ∈ kinds ∧ c.status = "FAIL"))).length

/-- Count of checks with status WARNING among the given check kinds. -/
def countWarnAmong (kinds : List String) (r : ComplianceReport) : ℕ :=
  (r.checks.filter (fun c => decide (c.check_type ∈ kinds ∧ c.status = "WARNING"))).length

/-- Total number of issues carried by the format check(s) of a report. -/
def formatIssueCount (r : ComplianceReport) : ℕ :=
  ((r.checks.filter (fun c => decide (c.check_type = "FORMAT_CHECK"))).map
    (fun c => c.issues.length)).sum

/-- Input exhibiting a failing date check and two format issues for the
SETTLEMENT_STATEMENT category: the closing date is in the past and the
contract date is not before it (two date issues, so the date check FAILs),
and the email and phone are both malformed (two format issues). -/
def c1Data : List (String × Value) :=
  [("closing_date", .vStr "2020-01-01"), ("contract_date", .vStr "2021-01-01"),
   ("email", .vStr "bad"), ("phone", .vStr "123")]

/-- An injected clock value: 20000 days after the epoch (2024-10-04). -/
def c1Now : ℤ := 86400 * 20000

/-- Spec-side predicate, written from the claim: a line case-insensitively
contains one of the fixed critical terms. -/
def caseInsensitiveContainsCritical (text : String) : Bool :=
  criticalKeywords.any (fun kw => pyContains (pyLower kw) (pyLower text))

/-- Spec-side restatement of the significance policy, written from the claim:
count critical occurrences across additions, deletions, and modifications
(a modification counts once if either side is critical); the tier is CRITICAL
at ≥ 3 occurrences, HIGH at ≥ 1, else MEDIUM when the total changed-line
count exceeds 20, else LOW. -/
def significanceSpec (additions deletions : List String) (mods : List Modification) : String :=
  let criticalCount :=
    (additions.filter caseInsensitiveContainsCritical).length +
    (deletions.filter caseInsensitiveContainsCritical).length +
    (mods.filter (fun m =>
      caseInsensitiveContainsCritical m.old || caseInsensitiveContainsCritical m.new)).length
  if 3 ≤ criticalCount then "CRITICAL"
  else if 1 ≤ criticalCount then "HIGH"
  else if 20 < additions.length + deletions.length + mods.length then "MEDIUM"
  else "LOW"

/-- The six keys of the dict returned by a successful visual-diff run. -/
def visualReportKeys : List String :=
  ["success", "visual_diff_url", "page_count", "total_changes",
   "average_change_percentage", "page_changes"]

theorem lookupRules_eq_empty (category : String)
    (h : List.lookup category defaultRules = none) : lookupRules category = {} := by
  simp [lookupRules, h]

theorem checkCompliance_lookup_none (category : String) (data : List (String × Value)) (now : ℤ)
    (h : List.lookup category defaultRules = none) :
    checkCompliance category data now = some vacuousReport := by
  unfold checkCompliance
  rw [lookupRules_eq_empty category h]
  rfl

/-- C2: an unknown category yields the empty rule set and a report in which
every check passes, with COMPLIANT status and zero counts, raising no error. -/
theorem c2_unknown_category_vacuous (category : String) (data : List (String × Value)) (now : ℤ)
    (h : List.lookup category defaultRules = none) :
    lookupRules category = {} ∧
    checkCompliance category data now = some vacuousReport ∧
    (∀ c ∈ vacuousReport.checks, c.status = "PASS") ∧
    vacuousReport.overall_status = "COMPLIANT" ∧
    vacuousReport.critical_issues = 0 ∧ vacuousReport.warnings = 0 ∧
    vacuousReport.suggestions = 0 :=
  ⟨lookupRules_eq_empty category h, checkCompliance_lookup_none category data now h,
   by decide, rfl, rfl, rfl, rfl⟩

theorem c2_unknown_category_vacuous_witness :
    lookupRules "XYZ" = {} ∧
    checkCompliance "XYZ" [("buyer_name", Value.vStr "A")] 42 = some vacuousReport ∧
    (∀ c ∈ vacuousReport.checks, c.status = "PASS") ∧
    vacuousReport.overall_status = "COMPLIANT" ∧
    vacuousReport.critical_issues = 0 ∧ vacuousReport.warnings = 0 ∧
    vacuousReport.suggestions = 0 :=
  c2_unknown_category_vacuous "XYZ" [("buyer_name", Value.vStr "A")] 42 (by decide)

/-- C9 counterexample: `check_compliance` does not upper-case its category;
the lower-case spelling of a known category falls through to the empty rule
set and produces a different report than the upper-case spelling. -/
theorem c9_counterexample :
    (checkCompliance "purchase_agreement" [] 0).map (fun r => r.overall_status) =
      some "COMPLIANT" ∧
    (checkCompliance "PURCHASE_AGREEMENT" [] 0).map (fun r => r.overall_status) =
      some "NON_COMPLIANT" ∧
    checkCompliance "purchase_agreement" [] 0 ≠ checkCompliance "PURCHASE_AGREEMENT" [] 0 := by
  decide

/-- C9 (amended): the category lookup is case-sensitive; a non-upper-case
spelling of a known category is treated as unknown and yields the vacuous
all-pass COMPLIANT report, which in general differs from the report of the
upper-case spelling. -/
theorem c9_case_sensitive_category (data : List (String × Value)) (now : ℤ) :
    checkCompliance "purchase_agreement" data now = some vacuousReport ∧
    (∀ c ∈ vacuousReport.checks, c.status = "PASS") ∧
    vacuousReport.overall_status = "COMPLIANT" ∧
    (checkCompliance "PURCHASE_AGREEMENT" [] 0).map (fun r => r.overall_status) =
      some "NON_COMPLIANT" :=
  ⟨checkCompliance_lookup_none "purchase_agreement" data now (by decide),
   by decide, rfl, by decide⟩

/-- C4 counterexample: with an empty new text (zero lines) and one deleted
line, the code returns a change percentage of 0, while the claimed formula
with denominator `max 1 (line count)` gives 100.  (For old text `"hello"` and
empty new text the external differencer tags the single old line `"- hello"`,
and the empty string splits into zero lines.) -/
theorem c4_counterexample :
    (detectTextChangesFromDiff (fun _ _ => 0) ["- hello"] 0).change_percentage = 0 ∧
    (detectTextChangesFromDiff (fun _ _ => 0) ["- hello"] 0).deletions.length = 1 ∧
    (detectTextChangesFromDiff (fun _ _ => 0) ["- hello"] 0).additions.length = 0 ∧
    (detectTextChangesFromDiff (fun _ _ => 0) ["- hello"] 0).modifications.length = 0 ∧
    (100 * (1 : ℚ) / ((max 1 0 : ℕ) : ℚ)) = 100 ∧ (0 : ℚ) ≠ 100 := by
  decide

/-- C4 (amended): the change percentage equals the changed-line count divided
by the line count of the new text (times 100, rounded to two digits) when the
new text has at least one line, and is 0 — not `changed / max 1 lines` — when
the new text has no lines. -/
theorem c4_change_percentage (sim : String → String → ℚ) (diff : List String) (totalLines : ℕ) :
    (detectTextChangesFromDiff sim diff totalLines).change_percentage =
      if 0 < totalLines then
        pyRound ((((detectTextChangesFromDiff sim diff totalLines).additions.length +
          (detectTextChangesFromDiff sim diff totalLines).deletions.length +
          (detectTextChangesFromDiff sim diff totalLines).modifications.length : ℕ) : ℚ) /
          (totalLines : ℚ) * 100) 2
      else 0 := by
  by_cases h : 0 < totalLines
  · simp only [detectTextChangesFromDiff, h, if_true, if_pos h]
  · simp only [detectTextChangesFromDiff, h, if_false, if_neg h]
    decide

theorem keywords_lower_fixed : criticalKeywords.map pyLower = criticalKeywords := by decide

theorem containsCritical_eq (t : String) :
    caseInsensitiveContainsCritical t = containsCriticalKeyword t := by
  unfold caseInsensitiveContainsCritical containsCriticalKeyword
  rw [show (criticalKeywords.any fun kw => pyContains (pyLower kw) (pyLower t)) =
      (criticalKeywords.map pyLower).any (fun kw => pyContains kw (pyLower t)) by
    rw [List.any_map]; rfl]
  rw [keywords_lower_fixed]

/-- C5: the significance tier computed by the code coincides, for every input,
with the policy as the specification states it: count case-insensitive
critical-term occurrences (a modification counting once if either side is
critical) and classify CRITICAL at ≥ 3, HIGH at ≥ 1, else MEDIUM when more
than 20 lines changed, else LOW. -/
theorem c5_significance_policy (additions deletions : List String) (mods : List Modification) :
    determineSignificance additions deletions mods = significanceSpec additions deletions mods := by
  have hfun : caseInsensitiveContainsCritical = containsCriticalKeyword :=
    funext containsCritical_eq
  unfold determineSignificance significanceSpec
  rw [hfun]

theorem checkRequiredFields_type (req : List String) (data : List (String × Value)) :
    (checkRequiredFields req data).check_type = "REQUIRED_FIELD" := rfl

theorem checkSignatures_type (req : List String) (sigs : Value) :
    (checkSignatures req sigs).check_type = "SIGNATURE" := rfl

theorem checkDates_type (checks : List String) (data : List (String × Value)) (now : ℤ) :
    (checkDates checks data now).check_type = "DATE_CHECK" := rfl

theorem checkRequiredFields_status (req : List String) (data : List (String × Value)) :
    (checkRequiredFields req data).status = "PASS" ∨
    (checkRequiredFields req data).status = "FAIL" :=
  ite_eq_or_eq _ _ _

theorem checkSignatures_status (req : List String) (sigs : Value) :
    (checkSignatures req sigs).status = "PASS" ∨ (checkSignatures req sigs).status = "FAIL" :=
  ite_eq_or_eq _ _ _

theorem checkDates_status (checks : List String) (data : List (String × Value)) (now : ℤ) :
    (checkDates checks data now).status = "PASS" ∨
    (checkDates checks data now).status = "WARNING" ∨
    (checkDates checks data now).status = "FAIL" := by
  unfold checkDates
  dsimp only
  split
  · exact Or.inl rfl
  · split
    · exact Or.inr (Or.inl rfl)
    · exact Or.inr (Or.inr rfl)

theorem checkRequiredClauses_spec {req : List String} {cl : Value} {c : CheckResult}
    (h : checkRequiredClauses req cl = some c) :
    c.check_type = "CLAUSE_CHECK" ∧ (c.status = "PASS" ∨ c.status = "FAIL") := by
  unfold checkRequiredClauses at h
  obtain ⟨joined, _, rfl⟩ := Option.map_eq_some'.mp h
  exact ⟨rfl, ite_eq_or_eq _ _ _⟩

theorem checkAmounts_spec {cs : List String} {data : List (String × Value)} {c : CheckResult}
    (h : checkAmounts cs data = some c) :
    c.check_type = "AMOUNT_CHECK" ∧ (c.status = "PASS" ∨ c.status = "WARNING") := by
  unfold checkAmounts at h
  obtain ⟨issues, _, rfl⟩ := Option.map_eq_some'.mp h
  exact ⟨rfl, ite_eq_or_eq _ _ _⟩

theorem checkFormat_spec {cs : List String} {data : List (String × Value)} {c : CheckResult}
    (h : checkFormat cs data = some c) :
    c.check_type = "FORMAT_CHECK" ∧ (c.status = "PASS" ∨ c.status = "WARNING") ∧
    (c.status = "WARNING" ↔ c.issues ≠ []) := by
  unfold checkFormat at h
  obtain ⟨issues, _, rfl⟩ := Option.map_eq_some'.mp h
  refine ⟨rfl, ite_eq_or_eq _ _ _, ?_⟩
  by_cases he : issues.isEmpty
  · simp_all [List.isEmpty_iff]
  · simp_all [List.isEmpty_iff]

/-- C6 counterexample: for a category without a `required_clauses` entry the
returned report has five checks, not six — the clause check is skipped. -/
theorem c6_counterexample :
    (checkCompliance "SETTLEMENT_STATEMENT" [] 0).map (fun r => r.checks.map (fun c => c.check_type)) =
      some ["REQUIRED_FIELD", "SIGNATURE", "DATE_CHECK", "AMOUNT_CHECK", "FORMAT_CHECK"] ∧
    (checkCompliance "SETTLEMENT_STATEMENT" [] 0).map (fun r => r.checks.length) ≠ some 6 := by
  decide

/-- C6 (amended): the six check kinds are evaluated in the fixed order
required fields, signatures, clauses, dates, amounts, format, but the clause
check is appended to the returned sequence only when the category defines
`required_clauses`; all other categories yield five `CheckResult`s in that
relative order. -/
theorem c6_checks_order (category : String) (data : List (String × Value)) (now : ℤ)
    (r : ComplianceReport) (h : checkCompliance category data now = some r) :
    r.checks.map (fun c => c.check_type) =
      if (lookupRules category).required_clauses.isSome then
        ["REQUIRED_FIELD", "SIGNATURE", "CLAUSE_CHECK", "DATE_CHECK", "AMOUNT_CHECK",
         "FORMAT_CHECK"]
      else
        ["REQUIRED_FIELD", "SIGNATURE", "DATE_CHECK", "AMOUNT_CHECK", "FORMAT_CHECK"] := by
  unfold checkCompliance at h
  cases hcl : (lookupRules category).required_clauses with
  | none =>
    simp only [hcl] at h
    cases hA : checkAmounts (lookupRules category).amount_checks data with
    | none => simp [hA] at h
    | some amountCheck =>
      cases hF : checkFormat (lookupRules category).format_checks data with
      | none => simp [hA, hF] at h
      | some formatCheck =>
        simp only [hA, hF, Option.some.injEq] at h
        subst h
        simp [hcl, checkRequiredFields_type, checkSignatures_type, checkDates_type,
          (checkAmounts_spec hA).1, (checkFormat_spec hF).1]
  | some req =>
    simp only [hcl] at h
    cases hC : checkRequiredClauses req (pyGetD data "clauses" (.vList [])) with
    | none => simp [hC] at h
    | some clauseCheck =>
      cases hA : checkAmounts (lookupRules category).amount_checks data with
      | none => simp [hC, hA] at h
      | some amountCheck =>
        cases hF : checkFormat (lookupRules category).format_checks data with
        | none => simp [hC, hA, hF] at h
        | some formatCheck =>
          simp only [hC, hA, hF, Option.map_some', Option.some.injEq] at h
          subst h
          simp [hcl, checkRequiredFields_type, checkSignatures_type, checkDates_type,
            (checkRequiredClauses_spec hC).1, (checkAmounts_spec hA).1, (checkFormat_spec hF).1]

theorem c6_checks_order_witness :
    (vacuousReport.checks.map (fun c => c.check_type) =
      if (lookupRules "XYZ").required_clauses.isSome then
        ["REQUIRED_FIELD", "SIGNATURE", "CLAUSE_CHECK", "DATE_CHECK", "AMOUNT_CHECK",
         "FORMAT_CHECK"]
      else
        ["REQUIRED_FIELD", "SIGNATURE", "DATE_CHECK", "AMOUNT_CHECK", "FORMAT_CHECK"]) :=
  c6_checks_order "XYZ" [] 0 vacuousReport (by decide)

/-- C1 counterexample: for a SETTLEMENT_STATEMENT whose date check fails (two
date issues) and whose format check carries two issues, the code counts the
date FAIL into `critical_issues` (3, not the 2 FAILs among required
fields/signatures/clauses) and `suggestions` is 1, not the format-issue count
2. -/
theorem c1_counterexample :
    (checkCompliance "SETTLEMENT_STATEMENT" c1Data c1Now).map (fun r =>
      (r.critical_issues, countFailAmong ["REQUIRED_FIELD", "SIGNATURE", "CLAUSE_CHECK"] r,
       r.suggestions, formatIssueCount r)) = some (3, 2, 1, 2) ∧
    (3 ≠ 2 ∧ 1 ≠ 2) := by
  decide

set_option maxHeartbeats 2000000 in
/-- C1 (amended): in every report, `critical_issues` counts the FAIL statuses
among the required-fields, signatures, clauses (when present) and dates
checks; `warnings` counts the WARNING statuses among the dates and amounts
checks; `suggestions` is 1 when the format check carries at least one issue
and 0 otherwise (not the number of format issues); `overall_status` is
NON_COMPLIANT when critical_issues > 0, else PARTIALLY_COMPLIANT when
warnings > 2, else NEEDS_REVIEW when warnings > 0, else COMPLIANT; and
`requires_review` holds exactly when critical_issues > 0 or warnings > 2. -/
theorem c1_aggregation (category : String) (data : List (String × Value)) (now : ℤ)
    (r : ComplianceReport) (h : checkCompliance category data now = some r) :
    r.critical_issues =
      countFailAmong ["REQUIRED_FIELD", "SIGNATURE", "CLAUSE_CHECK", "DATE_CHECK"] r ∧
    r.warnings = countWarnAmong ["DATE_CHECK", "AMOUNT_CHECK"] r ∧
    r.suggestions = (if 0 < formatIssueCount r then 1 else 0) ∧
    r.overall_status =
      (if r.critical_issues > 0 then "NON_COMPLIANT"
       else if r.warnings > 2 then "PARTIALLY_COMPLIANT"
       else if r.warnings > 0 then "NEEDS_REVIEW"
       else "COMPLIANT") ∧
    (r.requires_review = true ↔ (r.critical_issues > 0 ∨ r.warnings > 2)) := by
  unfold checkCompliance at h
  cases hcl : (lookupRules category).required_clauses with
  | none =>
    simp only [hcl] at h
    cases hA : checkAmounts (lookupRules category).amount_checks data with
    | none => simp [hA] at h
    | some amountCheck =>
      cases hF : checkFormat (lookupRules category).format_checks data with
      | none => simp [hA, hF] at h
      | some formatCheck =>
        simp only [hA, hF, Option.some.injEq] at h
        subst h
        have hiss := (checkFormat_spec hF).2.2
        refine ⟨?_, ?_, ?_, rfl, by simp [decide_eq_true_eq]⟩
        · rcases checkRequiredFields_status (lookupRules category).required_fields data with
            hf | hf <;>
          rcases checkSignatures_status (lookupRules category).required_signatures
            (pyGetD data "signatures" (.vList [])) with hs | hs <;>
          rcases checkDates_status (lookupRules category).date_checks data now with
            hd | hd | hd <;>
          simp [countFailAmong, hf, hs, hd, checkRequiredFields_type, checkSignatures_type,
            checkDates_type, (checkAmounts_spec hA).1, (checkFormat_spec hF).1]
        · rcases checkRequiredFields_status (lookupRules category).required_fields data with
            hf | hf <;>
          rcases checkDates_status (lookupRules category).date_checks data now with
            hd | hd | hd <;>
          rcases (checkAmounts_spec hA).2 with ha | ha <;>
          simp [countWarnAmong, hf, hd, ha, checkRequiredFields_type, checkSignatures_type,
            checkDates_type, (checkAmounts_spec hA).1, (checkFormat_spec hF).1]
        · rcases (checkFormat_spec hF).2.1 with hfm | hfm
          · have hempty : formatCheck.issues = [] := by
              by_contra hne
              exact absurd (hfm.symm.trans (hiss.mpr hne)) (by decide)
            simp [formatIssueCount, hfm, hempty, checkRequiredFields_type,
              checkSignatures_type, checkDates_type, (checkAmounts_spec hA).1,
              (checkFormat_spec hF).1]
          · have hpos : 0 < formatCheck.issues.length := List.length_pos.mpr (hiss.mp hfm)
            simp [formatIssueCount, hfm, hpos, checkRequiredFields_type,
              checkSignatures_type, checkDates_type, (checkAmounts_spec hA).1,
              (checkFormat_spec hF).1]
  | some req =>
    simp only [hcl] at h
    cases hC : checkRequiredClauses req (pyGetD data "clauses" (.vList [])) with
    | none => simp [hC] at h
    | some clauseCheck =>
      cases hA : checkAmounts (lookupRules category).amount_checks data with
      | none => simp [hC, hA] at h
      | some amountCheck =>
        cases hF : checkFormat (lookupRules category).format_checks data with
        | none => simp [hC, hA, hF] at h
        | some formatCheck =>
          simp only [hC, hA, hF, Option.map_some', Option.some.injEq] at h
          subst h
          have hiss := (checkFormat_spec hF).2.2
          refine ⟨?_, ?_, ?_, rfl, by simp [decide_eq_true_eq]⟩
          · rcases checkRequiredFields_status (lookupRules category).required_fields data with
              hf | hf <;>
            rcases checkSignatures_status (lookupRules category).required_signatures
              (pyGetD data "signatures" (.vList [])) with hs | hs <;>
            rcases (checkRequiredClauses_spec hC).2 with hc | hc <;>
            rcases checkDates_status (lookupRules category).date_checks data now with
              hd | hd | hd <;>
            simp [countFailAmong, hf, hs, hc, hd, checkRequiredFields_type,
              checkSignatures_type, checkDates_type, (checkRequiredClauses_spec hC).1,
              (checkAmounts_spec hA).1, (checkFormat_spec hF).1]
          · rcases checkRequiredFields_status (lookupRules category).required_fields data with
              hf | hf <;>
            rcases checkDates_status (lookupRules category).date_checks data now with
              hd | hd | hd <;>
            rcases (checkAmounts_spec hA).2 with ha | ha <;>
            simp [countWarnAmong, hf, hd, ha, checkRequiredFields_type, checkSignatures_type,
              checkDates_type, (checkRequiredClauses_spec hC).1, (checkAmounts_spec hA).1,
              (checkFormat_spec hF).1]
          · rcases (checkFormat_spec hF).2.1 with hfm | hfm
            · have hempty : formatCheck.issues = [] := by
                by_contra hne
                exact absurd (hfm.symm.trans (hiss.mpr hne)) (by decide)
              simp [formatIssueCount, hfm, hempty, checkRequiredFields_type,
                checkSignatures_type, checkDates_type, (checkRequiredClauses_spec hC).1,
                (checkAmounts_spec hA).1, (checkFormat_spec hF).1]
            · have hpos : 0 < formatCheck.issues.length := List.length_pos.mpr (hiss.mp hfm)
              simp [formatIssueCount, hfm, hpos, checkRequiredFields_type,
                checkSignatures_type, checkDates_type, (checkRequiredClauses_spec hC).1,
                (checkAmounts_spec hA).1, (checkFormat_spec hF).1]

theorem c1_aggregation_witness :
    vacuousReport.critical_issues =
      countFailAmong ["REQUIRED_FIELD", "SIGNATURE", "CLAUSE_CHECK", "DATE_CHECK"]
        vacuousReport ∧
    vacuousReport.warnings = countWarnAmong ["DATE_CHECK", "AMOUNT_CHECK"] vacuousReport ∧
    vacuousReport.suggestions = (if 0 < formatIssueCount vacuousReport then 1 else 0) ∧
    vacuousReport.overall_status =
      (if vacuousReport.critical_issues > 0 then "NON_COMPLIANT"
       else if vacuousReport.warnings > 2 then "PARTIALLY_COMPLIANT"
       else if vacuousReport.warnings > 0 then "NEEDS_REVIEW"
       else "COMPLIANT") ∧
    (vacuousReport.requires_review = true ↔
      (vacuousReport.critical_issues > 0 ∨ vacuousReport.warnings > 2)) :=
  c1_aggregation "XYZ" [] 0 vacuousReport (by decide)

theorem amountStep_earnest_zero (data : List (String × Value)) (issues : List String)
    (hp : parseAmount (pyGet data "purchase_price") = some 0) :
    amountStep data (some issues) "earnest_money_reasonable" = some issues := by
  simp only [amountStep, reduceIte]
  rw [hp]
  cases hE : parseAmount (pyGet data "earnest_money") <;> simp

theorem amountStep_price_positive_zero (data : List (String × Value)) (issues : List String)
    (hp : parseAmount (pyGet data "purchase_price") = some 0) :
    amountStep data (some issues) "purchase_price_positive" = some issues := by
  simp only [amountStep, reduceIte]
  rw [hp]
  simp

theorem amountStep_loan_positive_zero (data : List (String × Value)) (issues : List String)
    (hl : parseAmount (pyGet data "loan_amount") = some 0) :
    amountStep data (some issues) "loan_amount_positive" = some issues := by
  simp only [amountStep, reduceIte]
  rw [hl]
  simp

theorem amountStep_income_zero_loan (data : List (String × Value)) (issues : List String)
    (hl : parseAmount (pyGet data "loan_amount") = some 0) :
    amountStep data (some issues) "income_sufficient" = some issues := by
  simp only [amountStep, reduceIte]
  rw [hl]
  cases hI : parseAmount (pyGet data "income") <;> simp

/-- C10: a purchase price that parses to exactly 0 is skipped by the
positivity check (Python `if price and price <= 0` treats 0.0 as falsy), so
the PURCHASE_AGREEMENT amount check passes with no issue; the same holds for
a zero loan amount under the LOAN_APPLICATION amount checks. -/
theorem c10_zero_amount_passes (dataP dataL : List (String × Value))
    (hp : parseAmount (pyGet dataP "purchase_price") = some 0)
    (hl : parseAmount (pyGet dataL "loan_amount") = some 0) :
    checkAmounts (lookupRules "PURCHASE_AGREEMENT").amount_checks dataP =
      some amountsPassResult ∧
    amountsPassResult.status = "PASS" ∧ amountsPassResult.issues = [] ∧
    checkAmounts (lookupRules "LOAN_APPLICATION").amount_checks dataL =
      some amountsPassResult := by
  have e1 : (lookupRules "PURCHASE_AGREEMENT").amount_checks =
      ["earnest_money_reasonable", "purchase_price_positive"] := by decide
  have e2 : (lookupRules "LOAN_APPLICATION").amount_checks =
      ["loan_amount_positive", "income_sufficient"] := by decide
  refine ⟨?_, rfl, rfl, ?_⟩
  · rw [e1]
    unfold checkAmounts
    rw [show List.foldl (amountStep dataP) (some [])
        ["earnest_money_reasonable", "purchase_price_positive"] = some [] from ?_]
    · rfl
    · simp only [List.foldl]
      rw [amountStep_earnest_zero dataP [] hp, amountStep_price_positive_zero dataP [] hp]
  · rw [e2]
    unfold checkAmounts
    rw [show List.foldl (amountStep dataL) (some [])
        ["loan_amount_positive", "income_sufficient"] = some [] from ?_]
    · rfl
    · simp only [List.foldl]
      rw [amountStep_loan_positive_zero dataL [] hl, amountStep_income_zero_loan dataL [] hl]

theorem c10_zero_amount_passes_witness :
    checkAmounts (lookupRules "PURCHASE_AGREEMENT").amount_checks
      [("purchase_price", Value.vNum 0)] = some amountsPassResult ∧
    amountsPassResult.status = "PASS" ∧ amountsPassResult.issues = [] ∧
    checkAmounts (lookupRules "LOAN_APPLICATION").amount_checks
      [("loan_amount", Value.vStr "$0.00")] = some amountsPassResult :=
  c10_zero_amount_passes [("purchase_price", Value.vNum 0)]
    [("loan_amount", Value.vStr "$0.00")] (by decide) (by decide)

/-- C7 counterexample: with two old pages and one new page the report is still
the success record over the one overlapping page, and NO key of the returned
dict is a warning field — the page-count mismatch is only logged. -/
theorem c7_counterexample :
    (@detectVisualChanges ℕ (fun _ b n => ⟨b, n, 0, 0, false⟩) true [10, 20] [30]
        none).map Prod.fst = visualReportKeys ∧
    "warning" ∉ (@detectVisualChanges ℕ (fun _ b n => ⟨b, n, 0, 0, false⟩) true
        [10, 20] [30] none).map Prod.fst ∧
    ("page_changes", @ReportValue.rPageChanges ℕ [⟨1, 0, 0, false⟩]) ∈
      @detectVisualChanges ℕ (fun _ b n => ⟨b, n, 0, 0, false⟩) true [10, 20] [30]
        none ∧
    ([10, 20] : List ℕ).length ≠ ([30] : List ℕ).length := by
  decide

/-- C7 (amended): when the page counts differ, `detect_visual_changes` does
not fail — it returns the success report computed over the overlapping prefix
of pages — but the mismatch is only written to the log: the returned dict has
exactly the six fixed keys and no warning field. -/
theorem c7_visual_mismatch_tolerated {Page : Type}
    (comparePage : Page → Page → ℕ → PageCompareResult Page)
    (oldImages newImages : List Page) (outputPath : Option String)
    (h : oldImages.length ≠ newImages.length) :
    (detectVisualChanges comparePage true oldImages newImages outputPath).map Prod.fst =
      visualReportKeys ∧
    ("success", ReportValue.rBool true) ∈
      detectVisualChanges comparePage true oldImages newImages outputPath ∧
    (∃ pcs, ("page_changes", ReportValue.rPageChanges pcs) ∈
        detectVisualChanges comparePage true oldImages newImages outputPath ∧
      pcs.length = min oldImages.length newImages.length) ∧
    (∀ v, ("warning", v) ∉
      detectVisualChanges comparePage true oldImages newImages outputPath) := by
  refine ⟨by simp [detectVisualChanges, visualReportKeys], by simp [detectVisualChanges], ?_, ?_⟩
  · refine ⟨(((oldImages.zip newImages).enum).map
      (fun p => comparePage p.2.1 p.2.2 (p.1 + 1))).map (fun pr => pr.changes), ?_, ?_⟩
    · simp [detectVisualChanges]
    · simp [List.length_zip]
  · intro v
    simp [detectVisualChanges]

theorem c7_visual_mismatch_tolerated_witness :
    (@detectVisualChanges ℕ (fun _ b n => ⟨b, n, 0, 0, false⟩) true [10, 20] [30]
        none).map Prod.fst = visualReportKeys ∧
    ("success", ReportValue.rBool true) ∈
      @detectVisualChanges ℕ (fun _ b n => ⟨b, n, 0, 0, false⟩) true [10, 20] [30]
        none ∧
    (∃ pcs, ("page_changes", ReportValue.rPageChanges pcs) ∈
        @detectVisualChanges ℕ (fun _ b n => ⟨b, n, 0, 0, false⟩) true [10, 20] [30]
          none ∧
      pcs.length = min ([10, 20] : List ℕ).length ([30] : List ℕ).length) ∧
    (∀ v, ("warning", v) ∉
      @detectVisualChanges ℕ (fun _ b n => ⟨b, n, 0, 0, false⟩) true [10, 20] [30]
        none) :=
  c7_visual_mismatch_tolerated (fun _ b n => ⟨b, n, 0, 0, false⟩) [10, 20] [30] none
    (by decide)

theorem findBestAux_mono (sim : String → String → ℚ) (d : String) (adds : List String)
    (used : List ℕ) : ∀ (js : List ℕ) (acc : Option ℕ × ℚ),
    acc.2 ≤ (findBestAux sim d adds used js acc).2
  | [], _ => le_refl _
  | j :: js, acc => by
    unfold findBestAux
    by_cases hj : j ∈ used
    · simp only [if_pos hj]
      exact findBestAux_mono sim d adds used js acc
    · simp only [if_neg hj]
      by_cases hc : 3/5 < sim d (adds.getD j "") ∧ acc.2 < sim d (adds.getD j "")
      · simp only [if_pos hc]
        exact le_of_lt (lt_of_lt_of_le hc.2 (findBestAux_mono sim d adds used js _))
      · simp only [if_neg hc]
        exact findBestAux_mono sim d adds used js acc

theorem findBestAux_provenance (sim : String → String → ℚ) (d : String) (adds : List String)
    (used : List ℕ) : ∀ (js : List ℕ) (acc : Option ℕ × ℚ),
    findBestAux sim d adds used js acc = acc ∨
    ∃ j ∈ js, j ∉ used ∧
      findBestAux sim d adds used js acc = (some j, sim d (adds.getD j "")) ∧
      3/5 < sim d (adds.getD j "")
  | [], _ => Or.inl rfl
  | j :: js, acc => by
    unfold findBestAux
    by_cases hj : j ∈ used
    · simp only [if_pos hj]
      rcases findBestAux_provenance sim d adds used js acc with h | ⟨i, hmem, hnu, heq, hgt⟩
      · exact Or.inl h
      · exact Or.inr ⟨i, List.mem_cons_of_mem _ hmem, hnu, heq, hgt⟩
    · simp only [if_neg hj]
      by_cases hc : 3/5 < sim d (adds.getD j "") ∧ acc.2 < sim d (adds.getD j "")
      · simp only [if_pos hc]
        rcases findBestAux_provenance sim d adds used js (some j, sim d (adds.getD j ""))
          with h | ⟨i, hmem, hnu, heq, hgt⟩
        · exact Or.inr ⟨j, List.mem_cons_self _ _, hj, h, hc.1⟩
        · exact Or.inr ⟨i, List.mem_cons_of_mem _ hmem, hnu, heq, hgt⟩
      · simp only [if_neg hc]
        rcases findBestAux_provenance sim d adds used js acc with h | ⟨i, hmem, hnu, heq, hgt⟩
        · exact Or.inl h
        · exact Or.inr ⟨i, List.mem_cons_of_mem _ hmem, hnu, heq, hgt⟩

theorem findBestAux_strict (sim : String → String → ℚ) (d : String) (adds : List String)
    (used : List ℕ) : ∀ (js : List ℕ) (acc : Option ℕ × ℚ),
    findBestAux sim d adds used js acc ≠ acc →
    acc.2 < (findBestAux sim d adds used js acc).2
  | [], _ => fun h => absurd rfl h
  | j :: js, acc => by
    unfold findBestAux
    by_cases hj : j ∈ used
    · simp only [if_pos hj]
      exact findBestAux_strict sim d adds used js acc
    · simp only [if_neg hj]
      by_cases hc : 3/5 < sim d (adds.getD j "") ∧ acc.2 < sim d (adds.getD j "")
      · simp only [if_pos hc]
        intro _
        exact lt_of_lt_of_le hc.2 (findBestAux_mono sim d adds used js _)
      · simp only [if_neg hc]
        exact findBestAux_strict sim d adds used js acc

theorem findBestAux_bound (sim : String → String → ℚ) (d : String) (adds : List String)
    (used : List ℕ) : ∀ (js : List ℕ) (acc : Option ℕ × ℚ) (k : ℕ), k ∈ js → k ∉ used →
    sim d (adds.getD k "") ≤ 3/5 ∨
    sim d (adds.getD k "") ≤ (findBestAux sim d adds used js acc).2
  | [], _, k => fun hk _ => absurd hk (List.not_mem_nil k)
  | j :: js, acc, k => fun hk hku => by
    unfold findBestAux
    by_cases hj : j ∈ used
    · simp only [if_pos hj]
      rcases List.mem_cons.mp hk with rfl | hk₀
      · exact absurd hj hku
      · exact findBestAux_bound sim d adds used js acc k hk₀ hku
    · simp only [if_neg hj]
      by_cases hc : 3/5 < sim d (adds.getD j "") ∧ acc.2 < sim d (adds.getD j "")
      · simp only [if_pos hc]
        rcases List.mem_cons.mp hk with rfl | hk₀
        · exact Or.inr (findBestAux_mono sim d adds used js _)
        · exact findBestAux_bound sim d adds used js _ k hk₀ hku
      · simp only [if_neg hc]
        rcases List.mem_cons.mp hk with rfl | hk₀
        · rcases not_and_or.mp hc with h₁ | h₂
          · exact Or.inl (le_of_not_lt h₁)
          · exact Or.inr (le_trans (le_of_not_lt h₂) (findBestAux_mono sim d adds used js acc))
        · exact findBestAux_bound sim d adds used js acc k hk₀ hku

theorem findBestAux_earliest (sim : String → String → ℚ) (d : String) (adds : List String)
    (used : List ℕ) : ∀ (js : List ℕ) (acc : Option ℕ × ℚ),
    (∀ i, acc.1 = some i → ∀ x ∈ js, i < x) → js.Pairwise (· < ·) →
    ∀ j s, findBestAux sim d adds used js acc = (some j, s) →
    ∀ k ∈ js, k ∉ used → k < j → sim d (adds.getD k "") < s
  | [], _ => fun _ _ j s _ k hk => absurd hk (List.not_mem_nil k)
  | j₀ :: js, acc => fun hacc hsort j s hr k hk hku hkj => by
    have hsort' : js.Pairwise (fun a b => a < b) := (List.pairwise_cons.mp hsort).2
    have hj₀lt : ∀ x ∈ js, j₀ < x := (List.pairwise_cons.mp hsort).1
    revert hr
    unfold findBestAux
    by_cases hu : j₀ ∈ used
    · simp only [if_pos hu]
      intro hr
      rcases List.mem_cons.mp hk with rfl | hkjs
      · exact absurd hu hku
      · exact findBestAux_earliest sim d adds used js acc
          (fun i hi x hx => hacc i hi x (List.mem_cons_of_mem _ hx)) hsort' j s hr
          k hkjs hku hkj
    · simp only [if_neg hu]
      by_cases hc : 3/5 < sim d (adds.getD j₀ "") ∧ acc.2 < sim d (adds.getD j₀ "")
      · simp only [if_pos hc]
        intro hr
        rcases List.mem_cons.mp hk with rfl | hkjs
        · -- k was accepted as the interim best; the final result names j ≠ k,
          -- so the accumulator was strictly improved after k.
          have hne : findBestAux sim d adds used js (some k, sim d (adds.getD k "")) ≠
              (some k, sim d (adds.getD k "")) := by
            intro heq
            rw [heq] at hr
            have hkey : some k = some j := congrArg Prod.fst hr
            have : k = j := by injection hkey
            omega
          have hstrict := findBestAux_strict sim d adds used js
            (some k, sim d (adds.getD k "")) hne
          rw [hr] at hstrict
          exact hstrict
        · exact findBestAux_earliest sim d adds used js (some j₀, sim d (adds.getD j₀ ""))
            (fun i hi x hx => by
              have hji : j₀ = i := by injection hi
              subst hji
              exact hj₀lt x hx) hsort' j s hr k hkjs hku hkj
      · simp only [if_neg hc]
        intro hr
        rcases List.mem_cons.mp hk with rfl | hkjs
        · -- k was rejected: its similarity is at most max(3/5, acc.2), and the
          -- final result is an accepted candidate strictly above both.
          have hrne : findBestAux sim d adds used js acc ≠ acc := by
            intro heq
            rw [heq] at hr
            have hj' : acc.1 = some j := congrArg Prod.fst hr
            have hlt := hacc j hj' k (List.mem_cons_self _ _)
            omega
          have hstrict := findBestAux_strict sim d adds used js acc hrne
          rw [hr] at hstrict
          have hgt : 3/5 < s := by
            rcases findBestAux_provenance sim d adds used js acc with heq | ⟨i, _, _, heqr, hgt'⟩
            · exact absurd heq hrne
            · rw [hr] at heqr
              have hsnd : s = sim d (adds.getD i "") := by
                have := congrArg Prod.snd heqr
                simpa using this
              rw [hsnd]
              exact hgt'
          rcases not_and_or.mp hc with h₁ | h₂
          · exact lt_of_le_of_lt (le_of_not_lt h₁) hgt
          · exact lt_of_le_of_lt (le_of_not_lt h₂) hstrict
        · exact findBestAux_earliest sim d adds used js acc
            (fun i hi x hx => hacc i hi x (List.mem_cons_of_mem _ hx)) hsort' j s hr
            k hkjs hku hkj

theorem findBestMatch_some_spec {sim : String → String → ℚ} {d : String} {adds : List String}
    {used : List ℕ} {j : ℕ} {s : ℚ} (h : findBestMatch sim d adds used = (some j, s)) :
    j < adds.length ∧ j ∉ used ∧ s = sim d (adds.getD j "") ∧ 3/5 < s ∧
    (∀ k, k < adds.length → k ∉ used → sim d (adds.getD k "") ≤ s) ∧
    (∀ k, k < adds.length → k ∉ used → k < j → sim d (adds.getD k "") < s) := by
  unfold findBestMatch at h
  rcases findBestAux_provenance sim d adds used (List.range adds.length) (none, 0) with
    heq | ⟨i, hmem, hnu, heqr, hgt⟩
  · rw [h] at heq
    exact absurd (congrArg Prod.fst heq) (by simp)
  · rw [h] at heqr
    have hji : j = i := by
      have := congrArg Prod.fst heqr
      simpa using this
    subst hji
    have hs : s = sim d (adds.getD j "") := by
      have := congrArg Prod.snd heqr
      simpa using this
    refine ⟨List.mem_range.mp hmem, hnu, hs, hs ▸ hgt, ?_, ?_⟩
    · intro k hk hku
      rcases findBestAux_bound sim d adds used (List.range adds.length) (none, 0) k
          (List.mem_range.mpr hk) hku with hle | hle
      · exact le_of_lt (lt_of_le_of_lt hle (hs ▸ hgt))
      · rw [h] at hle
        exact hle
    · intro k hk hku hkj
      exact findBestAux_earliest sim d adds used (List.range adds.length) (none, 0)
        (fun i hi => absurd hi (by simp)) (List.pairwise_lt_range _) j s h k
        (List.mem_range.mpr hk) hku hkj

theorem findBestMatch_none_of_all_le {sim : String → String → ℚ} {d : String}
    {adds : List String} {used : List ℕ}
    (h : ∀ k, k < adds.length → sim d (adds.getD k "") ≤ 3/5) :
    findBestMatch sim d adds used = (none, 0) := by
  unfold findBestMatch
  rcases findBestAux_provenance sim d adds used (List.range adds.length) (none, 0) with
    heq | ⟨i, hmem, _, _, hgt⟩
  · exact heq
  · exact absurd hgt (not_lt.mpr (h i (List.mem_range.mp hmem)))

theorem findBestMatch_some_of_exists {sim : String → String → ℚ} {d : String}
    {adds : List String} {used : List ℕ}
    (h : ∃ k, k < adds.length ∧ k ∉ used ∧ 3/5 < sim d (adds.getD k "")) :
    ∃ j s, findBestMatch sim d adds used = (some j, s) := by
  obtain ⟨k, hk, hku, hgt⟩ := h
  cases hr : findBestMatch sim d adds used with
  | mk fst snd =>
    cases fst with
    | some j => exact ⟨j, snd, rfl⟩
    | none =>
      exfalso
      unfold findBestMatch at hr
      rcases findBestAux_provenance sim d adds used (List.range adds.length) (none, 0) with
        heq | ⟨i, _, _, heqr, _⟩
      · rw [heq] at hr
        have hsnd : snd = 0 := by
          have := congrArg Prod.snd hr
          simpa using this.symm
        rcases findBestAux_bound sim d adds used (List.range adds.length) (none, 0) k
            (List.mem_range.mpr hk) hku with hle | hle
        · exact absurd hgt (not_lt.mpr hle)
        · rw [heq] at hle
          have : sim d (adds.getD k "") ≤ 0 := hle
          have h35 : (0 : ℚ) < 3/5 := by norm_num
          exact absurd hgt (not_lt.mpr (le_trans this (le_of_lt h35)))
      · rw [heqr] at hr
        exact absurd (congrArg Prod.fst hr) (by simp)

theorem detectMods_foldl_sound (sim : String → String → ℚ) (adds : List String)
    (P : Modification → Prop)
    (hP : ∀ (deletion : String) (j : ℕ) (s : ℚ) (used : List ℕ),
      findBestMatch sim deletion adds used = (some j, s) →
      P ⟨deletion, adds.getD j "", pyRound s 3⟩) :
    ∀ (dels : List String) (acc : List Modification × List ℕ),
    (∀ m ∈ acc.1, P m) →
    ∀ m ∈ (List.foldl (modStep sim adds) acc dels).1, P m
  | [], _ => fun hacc => hacc
  | del :: dels, acc => fun hacc => by
    simp only [List.foldl]
    cases hb : findBestMatch sim del adds acc.2 with
    | mk fst snd =>
      cases fst with
      | none =>
        have hstep : modStep sim adds acc del = acc := by
          unfold modStep
          rw [hb]
        rw [hstep]
        exact detectMods_foldl_sound sim adds P hP dels acc hacc
      | some j =>
        have hstep : modStep sim adds acc del =
            (acc.1 ++ [⟨del, adds.getD j "", pyRound snd 3⟩], acc.2 ++ [j]) := by
          unfold modStep
          rw [hb]
        rw [hstep]
        refine detectMods_foldl_sound sim adds P hP dels _ ?_
        intro m hm
        rcases List.mem_append.mp hm with hm₀ | hm₁
        · exact hacc m hm₀
        · rcases List.mem_singleton.mp hm₁ with rfl
          exact hP del j snd acc.2 hb

/-- C3: the modification-pairing selection rule.  (i) A best match returned
for a deletion names a still-unmatched addition whose similarity is the
chosen score, strictly above 0.6, maximal among the still-unmatched
additions, and strictly above every still-unmatched addition of smaller
index (ties go to the earliest index).  (ii) When every addition scores at
most 0.6 no pair is formed.  (iii) Every emitted modification pairs lines of
similarity strictly above 0.6.  (iv) Two lines of similarity exactly 0.6
never pair.  (v) A pair of similarity 0.95 does pair. -/
theorem c3_pairing_rule :
    (∀ (sim : String → String → ℚ) (d : String) (adds : List String) (used : List ℕ)
        (j : ℕ) (s : ℚ), findBestMatch sim d adds used = (some j, s) →
      j < adds.length ∧ j ∉ used ∧ s = sim d (adds.getD j "") ∧ 3/5 < s ∧
      (∀ k, k < adds.length → k ∉ used → sim d (adds.getD k "") ≤ s) ∧
      (∀ k, k < adds.length → k ∉ used → k < j → sim d (adds.getD k "") < s)) ∧
    (∀ (sim : String → String → ℚ) (d : String) (adds : List String) (used : List ℕ),
      (∀ k, k < adds.length → sim d (adds.getD k "") ≤ 3/5) →
      findBestMatch sim d adds used = (none, 0)) ∧
    (∀ (sim : String → String → ℚ) (dels adds : List String) (m : Modification),
      m ∈ detectModifications sim dels adds → 3/5 < sim m.old m.new) ∧
    (∀ (sim : String → String → ℚ) (d a : String), sim d a = 3/5 →
      detectModifications sim [d] [a] = []) ∧
    (∀ (sim : String → String → ℚ) (d a : String), sim d a = 19/20 →
      detectModifications sim [d] [a] = [⟨d, a, 19/20⟩]) := by
  refine ⟨fun sim d adds used j s h => findBestMatch_some_spec h,
    fun sim d adds used h => findBestMatch_none_of_all_le h, ?_, ?_, ?_⟩
  · intro sim dels adds m hm
    unfold detectModifications at hm
    exact detectMods_foldl_sound sim adds (fun m => 3/5 < sim m.old m.new)
      (fun del j s used hb => by
        obtain ⟨_, _, hs, hgt, _, _⟩ := findBestMatch_some_spec hb
        simpa [hs] using hgt)
      dels ([], []) (by simp) m hm
  · intro sim d a h
    have hb : findBestMatch sim d [a] [] = (none, 0) := by
      apply findBestMatch_none_of_all_le
      intro k hk
      have hk0 : k = 0 := by
        have : k < 1 := by simpa using hk
        omega
      subst hk0
      simpa using le_of_eq h
    unfold detectModifications
    simp only [List.foldl]
    have hstep : modStep sim [a] ([], []) d = ([], []) := by
      unfold modStep
      rw [hb]
    rw [hstep]
  · intro sim d a h
    obtain ⟨j, s, hb⟩ := @findBestMatch_some_of_exists sim d [a] []
      ⟨0, by simp, by simp, by simpa [h] using (by norm_num : (3:ℚ)/5 < 19/20)⟩
    obtain ⟨hlen, _, hs, _, _, _⟩ := findBestMatch_some_spec hb
    have hj : j = 0 := by
      have : j < 1 := by simpa using hlen
      omega
    subst hj
    have hs' : s = 19/20 := by simpa [h] using hs
    subst hs'
    unfold detectModifications
    simp only [List.foldl]
    have hstep : modStep sim [a] ([], []) d = ([⟨d, a, pyRound (19/20) 3⟩], [0]) := by
      unfold modStep
      rw [hb]
      rfl
    rw [hstep]
    have hpr : pyRound ((19:ℚ)/20) 3 = 19/20 := by decide
    rw [hpr]

theorem c3_pairing_rule_witness :
    detectModifications (fun _ _ => (19/20 : ℚ)) ["x"] ["y"] =
      [⟨"x", "y", (19/20 : ℚ)⟩] :=
  c3_pairing_rule.2.2.2.2 (fun _ _ => (19/20 : ℚ)) "x" "y" rfl

theorem detectMods_olds_sublist (sim : String → String → ℚ) (adds : List String) :
    ∀ (dels : List String) (acc : List Modification × List ℕ),
    ∃ t, ((List.foldl (modStep sim adds) acc dels).1).map (fun m => m.old) =
      acc.1.map (fun m => m.old) ++ t ∧ List.Sublist t dels
  | [], acc => ⟨[], by simp, List.nil_sublist _⟩
  | del :: dels, acc => by
    simp only [List.foldl]
    cases hb : findBestMatch sim del adds acc.2 with
    | mk fst snd =>
      cases fst with
      | none =>
        have hstep : modStep sim adds acc del = acc := by
          unfold modStep
          rw [hb]
        rw [hstep]
        obtain ⟨t, ht, hsub⟩ := detectMods_olds_sublist sim adds dels acc
        exact ⟨t, ht, List.Sublist.cons _ hsub⟩
      | some j =>
        have hstep : modStep sim adds acc del =
            (acc.1 ++ [⟨del, adds.getD j "", pyRound snd 3⟩], acc.2 ++ [j]) := by
          unfold modStep
          rw [hb]
        rw [hstep]
        obtain ⟨t, ht, hsub⟩ := detectMods_olds_sublist sim adds dels
          (acc.1 ++ [⟨del, adds.getD j "", pyRound snd 3⟩], acc.2 ++ [j])
        refine ⟨del :: t, ?_, List.Sublist.cons₂ _ hsub⟩
        rw [ht]
        simp

theorem detectMods_news_inv (sim : String → String → ℚ) (adds : List String) :
    ∀ (dels : List String) (acc : List Modification × List ℕ),
    acc.1.map (fun m => m.new) = acc.2.map (fun j => adds.getD j "") →
    acc.2.Nodup → (∀ j ∈ acc.2, j < adds.length) →
    ((List.foldl (modStep sim adds) acc dels).1).map (fun m => m.new) =
      ((List.foldl (modStep sim adds) acc dels).2).map (fun j => adds.getD j "") ∧
    ((List.foldl (modStep sim adds) acc dels).2).Nodup ∧
    (∀ j ∈ (List.foldl (modStep sim adds) acc dels).2, j < adds.length)
  | [], acc => fun h1 h2 h3 => ⟨h1, h2, h3⟩
  | del :: dels, acc => fun h1 h2 h3 => by
    simp only [List.foldl]
    cases hb : findBestMatch sim del adds acc.2 with
    | mk fst snd =>
      cases fst with
      | none =>
        have hstep : modStep sim adds acc del = acc := by
          unfold modStep
          rw [hb]
        rw [hstep]
        exact detectMods_news_inv sim adds dels acc h1 h2 h3
      | some j =>
        obtain ⟨hjlen, hjnu, _, _, _, _⟩ := findBestMatch_some_spec hb
        have hstep : modStep sim adds acc del =
            (acc.1 ++ [⟨del, adds.getD j "", pyRound snd 3⟩], acc.2 ++ [j]) := by
          unfold modStep
          rw [hb]
        rw [hstep]
        refine detectMods_news_inv sim adds dels _ ?_ ?_ ?_
        · simp [h1]
        · simp [List.nodup_append, h2, hjnu]
        · intro i hi
          rcases List.mem_append.mp hi with hi₀ | hi₁
          · exact h3 i hi₀
          · rcases List.mem_singleton.mp hi₁ with rfl
            exact hjlen

theorem count_getD_range {α : Type} [DecidableEq α] (dflt s : α) :
    ∀ (l : List α), l.count s =
      ((List.range l.length).filter (fun j => l.getD j dflt == s)).length
  | [] => by simp
  | a :: t => by
    rw [List.length_cons, List.range_succ_eq_map, List.filter_cons, List.filter_map]
    have hcomp : ((fun j => (a :: t).getD j dflt == s) ∘ Nat.succ) =
        (fun j => t.getD j dflt == s) := rfl
    rw [hcomp, List.count_cons, count_getD_range dflt s t]
    by_cases ha : a == s <;> simp [ha]

theorem count_map_getD_le {α : Type} [DecidableEq α] (l : List α) (dflt : α) (idxs : List ℕ)
    (h1 : idxs.Nodup) (h2 : ∀ j ∈ idxs, j < l.length) (s : α) :
    (idxs.map (fun j => l.getD j dflt)).count s ≤ l.count s := by
  rw [List.count_eq_countP, List.countP_map, List.countP_eq_length_filter]
  rw [count_getD_range dflt s l]
  apply List.Subperm.length_le
  apply List.Nodup.subperm (h1.filter _)
  intro j hj
  rw [List.mem_filter] at hj ⊢
  exact ⟨List.mem_range.mpr (h2 j hj.1), hj.2⟩

theorem removeMatched_count (s : String) :
    ∀ (matched lines : List String),
    (removeMatched lines matched).count s = lines.count s - matched.count s
  | [], lines => by simp [removeMatched]
  | m :: ms, lines => by
    unfold removeMatched
    simp only [List.foldl]
    have hstep : (if m ∈ lines then lines.erase m else lines) = lines.erase m := by
      by_cases hm : m ∈ lines
      · rw [if_pos hm]
      · rw [if_neg hm, List.erase_of_not_mem hm]
    rw [hstep]
    have ih : (removeMatched (lines.erase m) ms).count s =
        (lines.erase m).count s - ms.count s := removeMatched_count s ms (lines.erase m)
    unfold removeMatched at ih
    rw [ih, List.count_erase, List.count_cons]
    by_cases hm : m == s <;> simp [hm] <;> omega

/-- C8: in the returned change set, each line occurrence lives in at most one
collection — occurrence-wise, the final deletions plus the old sides of the
modifications are exactly the raw deletions of the diff, and the final
additions plus the new sides of the modifications are exactly the raw
additions (every matched line is removed from the raw lists). -/
theorem c8_no_double_counting (sim : String → String → ℚ) (diff : List String)
    (totalLines : ℕ) (s : String) :
    (detectTextChangesFromDiff sim diff totalLines).deletions.count s +
      ((detectTextChangesFromDiff sim diff totalLines).modifications.map
        (fun m => m.old)).count s = (parseDiffLines diff).2.count s ∧
    (detectTextChangesFromDiff sim diff totalLines).additions.count s +
      ((detectTextChangesFromDiff sim diff totalLines).modifications.map
        (fun m => m.new)).count s = (parseDiffLines diff).1.count s := by
  have hmods : (detectTextChangesFromDiff sim diff totalLines).modifications =
      detectModifications sim (parseDiffLines diff).2 (parseDiffLines diff).1 := rfl
  have hdel : (detectTextChangesFromDiff sim diff totalLines).deletions =
      removeMatched (parseDiffLines diff).2
        ((detectModifications sim (parseDiffLines diff).2 (parseDiffLines diff).1).map
          (fun m => m.old)) := rfl
  have hadd : (detectTextChangesFromDiff sim diff totalLines).additions =
      removeMatched (parseDiffLines diff).1
        ((detectModifications sim (parseDiffLines diff).2 (parseDiffLines diff).1).map
          (fun m => m.new)) := rfl
  rw [hmods, hdel, hadd]
  constructor
  · obtain ⟨t, ht, hsub⟩ := detectMods_olds_sublist sim (parseDiffLines diff).1
      (parseDiffLines diff).2 ([], [])
    have holds : (detectModifications sim (parseDiffLines diff).2
        (parseDiffLines diff).1).map (fun m => m.old) = t := by
      simpa [detectModifications] using ht
    rw [removeMatched_count, holds]
    have hle : t.count s ≤ (parseDiffLines diff).2.count s := hsub.count_le s
    omega
  · obtain ⟨hmap, hnu, hbound⟩ := detectMods_news_inv sim (parseDiffLines diff).1
      (parseDiffLines diff).2 ([], []) (by simp) (by simp) (by simp)
    have hnews : (detectModifications sim (parseDiffLines diff).2
        (parseDiffLines diff).1).map (fun m => m.new) =
        ((List.foldl (modStep sim (parseDiffLines diff).1) ([], [])
          (parseDiffLines diff).2).2).map (fun j => (parseDiffLines diff).1.getD j "") := by
      simpa [detectModifications] using hmap
    rw [removeMatched_count, hnews]
    have hle := count_map_getD_le (parseDiffLines diff).1 ""
      ((List.foldl (modStep sim (parseDiffLines diff).1) ([], [])
        (parseDiffLines diff).2).2) hnu hbound s
    omega
